import Mathlib

/-!
# SI-Voice: BLE beacon to speech-IC announcement firmware

A shallow embedding of `ble_observer/src/main.c` and `ble_observer/src/observer.c`.

* Bytes (`unsigned char`, `uint8_t`, and `char`, which is unsigned on the ARM target) are
  natural numbers below 256; every narrowing store is written with an explicit `% 256`.
* C arrays are lists.  A read or write outside an array is undefined behaviour in C and is
  modelled as the fault `Fault.outOfBounds i`, where `i` is the offending index.
* The global variables of `main.c` are the fields of `Templates` and `Dev`; functions that
  mutate globals take the state and return the new one.
* Everything the firmware does to the SPI transport is appended to `Dev.trace`.
* `rx_buffer` is only ever printed, and only when `DEBUG_ENABLE` is set (it is 0), so it
  is not part of the state; the GPIO pin functions and `main` play no part in the
  handshakes and are not embedded.
* `isc_msgs.h` is not among the sources: its request arrays and lengths are the
  parameter `IscMsgs`.
-/

namespace SIVoice

/-! ## Faults -/

/-- Ways in which the embedded C code can leave defined, terminating behaviour. -/
inductive Fault where
  /-- An array was indexed at `idx`, which is outside of it. -/
  | outOfBounds (idx : Nat)
  /-- A busy-wait loop whose exit condition can never become true. -/
  | noReturn
  deriving DecidableEq, Repr

deriving instance DecidableEq for Except

/-- Bounds-checked read `a[i]`. -/
def readByte (a : List Nat) (i : Nat) : Except Fault Nat :=
  match a[i]? with
  | some b => .ok b
  | none => .error (.outOfBounds i)

/-! ## Message templates (`main.c` lines 189-218) -/

/-- Initial contents of `iscSequencerConfigReq`. -/
def iscSequencerConfigReq : List Nat :=
  [0x00, 0xAA, 0x30, 0x00, 0xC4, 0x00, 0x01, 0x00, 0x05, 0x00,
   0x00, 0x00, 0x01, 0x00, 0x03, 0x00, 0xCA, 0x00,
   0x00, 0x00, 0x01, 0x00, 0x03, 0x00, 0x8E, 0x00,
   0x00, 0x00, 0x01, 0x00, 0x03, 0x00, 0xCB, 0x00,
   0x00, 0x00, 0x01, 0x00, 0x03, 0x00, 0x00, 0x00,
   0x00, 0x00, 0x01, 0x00, 0x03, 0x00, 0x26, 0x00]

/-- Initial contents of `iscSequencerConfigReqWithoutHours`. -/
def iscSequencerConfigReqWithoutHours : List Nat :=
  [0x00, 0xAA, 0x28, 0x00, 0xC4, 0x00, 0x01, 0x00, 0x04, 0x00,
   0x00, 0x00, 0x01, 0x00, 0x03, 0x00, 0xCA, 0x00,
   0x00, 0x00, 0x01, 0x00, 0x03, 0x00, 0x8E, 0x00,
   0x00, 0x00, 0x01, 0x00, 0x03, 0x00, 0xCB, 0x00,
   0x00, 0x00, 0x01, 0x00, 0x03, 0x00, 0x26, 0x00]

/-- The value of `sizeof(iscSequencerConfigReq)`. -/
def sizeofIscSequencerConfigReq : Nat := iscSequencerConfigReq.length

/-- The value of `sizeof(iscSequencerConfigReqWithoutHours)`. -/
def sizeofIscSequencerConfigReqWithoutHours : Nat := iscSequencerConfigReqWithoutHours.length

/-- The three globals written by `createIscSequencerConfigReq`. -/
structure Templates where
  /-- Current contents of the global array `iscSequencerConfigReq`. -/
  iscSequencerConfigReq : List Nat
  /-- Current contents of the global array `iscSequencerConfigReqWithoutHours`. -/
  iscSequencerConfigReqWithoutHours : List Nat
  /-- The global flag `msgHasHours`. -/
  msgHasHours : Bool
  deriving DecidableEq, Repr

/-- The globals as initialised at program start. -/
def Templates.init : Templates :=
  { iscSequencerConfigReq := SIVoice.iscSequencerConfigReq
    iscSequencerConfigReqWithoutHours := SIVoice.iscSequencerConfigReqWithoutHours
    msgHasHours := false }

/-! ## Field extraction (`createIscSequencerConfigReq`, lines 234-244) -/

/-- The locals `controlNumber`, `hours`, `minutes` (all `uint8_t`). -/
structure SiacFields where
  controlNumber : Nat
  hours : Nat
  minutes : Nat
  deriving DecidableEq, Repr

/-- C `strlen` started at offset `n` of an array whose remaining bytes are the list argument:
counts bytes up to the first zero; reading past the end of the array is a fault. -/
def strlenFrom : List Nat → Nat → Except Fault Nat
  | [], n => .error (.outOfBounds n)
  | b :: rest, n => if b = 0 then .ok n else strlenFrom rest (n + 1)

/-- C `strlen` on an array. -/
def strlen (s : List Nat) : Except Fault Nat := strlenFrom s 0

/-- The body of `for (int i = 0; i < strlen(siac_data); i++)`, run for the `k` remaining
iterations starting at index `i`, with `f` the current values of the three locals. -/
def scanLoop (siac_data : List Nat) : Nat → Nat → SiacFields → Except Fault SiacFields
  | 0, _, f => .ok f
  | k + 1, i, f => do
    let b ← readByte siac_data i
    if b = 0x07 then
      let c ← readByte siac_data (i + 1)
      let h ← readByte siac_data (i + 2)
      let m ← readByte siac_data (i + 3)
      scanLoop siac_data k (i + 1) ⟨c % 256, h % 256, m % 256⟩
    else
      scanLoop siac_data k (i + 1) f

/-- Lines 234-244: the three locals start at zero and the marker scan runs over the first
`strlen(siac_data)` bytes.  The array is not written in the loop, so the loop bound
`strlen(siac_data)` has the same value at every iteration and is evaluated once here. -/
def extractSiacFields (siac_data : List Nat) : Except Fault SiacFields := do
  let n ← strlen siac_data
  scanLoop siac_data n 0 ⟨0, 0, 0⟩

/-! ## Phrase codes and template patching (lines 247-262) -/

/-- `uint8_t hoursMsgCode = hours - 1;` (computed in `int`, stored as a byte). -/
def hoursMsgCode (hours : Nat) : Nat := (((hours : Int) - 1) % 256).toNat

/-- `uint8_t minutesMsgcode = (minutes + 24) - 1;`. -/
def minutesMsgcode (minutes : Nat) : Nat := ((minutes + 24) - 1) % 256

/-- `uint8_t controlMsgCode = (controlNumber + 142) - 1;`. -/
def controlMsgCode (controlNumber : Nat) : Nat := ((controlNumber + 142) - 1) % 256

/-- Lines 252-262: select a template through `msgHasHours` and patch its code bytes. -/
def patchTemplates (t : Templates) (f : SiacFields) : Templates :=
  if f.hours = 0 then
    { t with
      msgHasHours := false
      iscSequencerConfigReqWithoutHours :=
        (t.iscSequencerConfigReqWithoutHours.set 24 (controlMsgCode f.controlNumber)).set 40 (minutesMsgcode f.minutes) }
  else
    { t with
      msgHasHours := true
      iscSequencerConfigReq :=
        ((t.iscSequencerConfigReq.set 24 (controlMsgCode f.controlNumber)).set 40
          (hoursMsgCode f.hours)).set 48 (minutesMsgcode f.minutes) }

/-- The function `createIscSequencerConfigReq(siac_data)`. -/
def createIscSequencerConfigReq (t : Templates) (siac_data : List Nat) :
    Except Fault Templates := do
  let f ← extractSiacFields siac_data
  pure (patchTemplates t f)

/-- The array and length that `S1V3G340_Play_Specific_Audio` passes to `updateTxBuffer`
(lines 343-350): chosen by `msgHasHours`, the length being the `sizeof` of the array. -/
def sequencerConfigMsg (t : Templates) : List Nat × Nat :=
  if t.msgHasHours then (t.iscSequencerConfigReq, sizeofIscSequencerConfigReq)
  else (t.iscSequencerConfigReqWithoutHours, sizeofIscSequencerConfigReqWithoutHours)

/-! ## Transmit buffer (`updateTxBuffer`, lines 147-159) -/

/-- Bounds-checked write `a[i] = b`. -/
def writeByte (a : List Nat) (i : Nat) (b : Nat) : Except Fault (List Nat) :=
  if i < a.length then .ok (a.set i b) else .error (.outOfBounds i)

/-- The value of `sizeof(tx_buffer)`. -/
def sizeofTxBuffer : Nat := 70

/-- The first loop of `updateTxBuffer`: `tx_buffer[i] = msgBuf[i]` for the `k` remaining
iterations starting at index `i`. -/
def copyLoop (msgBuf : List Nat) : Nat → Nat → List Nat → Except Fault (List Nat)
  | 0, _, tx => .ok tx
  | k + 1, i, tx => do
    let b ← readByte msgBuf i
    let tx ← writeByte tx i b
    copyLoop msgBuf k (i + 1) tx

/-- The second loop of `updateTxBuffer`: `tx_buffer[j] = 0` for the `k` remaining
iterations starting at index `j`; the loop condition keeps `j` below `sizeof(tx_buffer)`. -/
def clearLoop : Nat → Nat → List Nat → List Nat
  | 0, _, tx => tx
  | k + 1, j, tx => clearLoop k (j + 1) (tx.set j 0)

/-- The function `updateTxBuffer(msgBuf, len)` acting on the contents of `tx_buffer`. -/
def updateTxBuffer (tx_buffer : List Nat) (msgBuf : List Nat) (len : Nat) :
    Except Fault (List Nat) := do
  let tx ← copyLoop msgBuf len 0 tx_buffer
  pure (clearLoop (sizeofTxBuffer - len) len tx)

/-! ## Device state, transport and completion signal -/

/-- The request bodies and lengths declared in `isc_msgs.h`, which is not part of the
sources: they are parameters of the embedding.  (`aucIscSequencerStartReq` is written by
the firmware and therefore lives in `Dev`.) -/
structure IscMsgs where
  aucIscResetReq : List Nat
  iIscResetReqLen : Nat
  aucIscTestReq : List Nat
  iIscTestReqLen : Nat
  aucIscVersionReq : List Nat
  iIscVersionReqLen : Nat
  aucIscAudioConfigReq : List Nat
  iIscAudioConfigReqLen : Nat
  iIscSequencerStartReqLen : Nat

/-- Behaviour of the SPI transport, indexed by the number of the `spi_transceive_async`
call (counted from 0 over the life of the device).  Every accepted transfer is taken to
complete eventually; a transport that never signals completion is outside the model. -/
structure Transport where
  /-- The value returned by the call; non-zero means the transfer was not started. -/
  rc : Nat → Int
  /-- The status with which the transfer raises `spi_done_sig` when it completes. -/
  result : Nat → Int

/-- What the firmware does to the transport, in program order. -/
inductive Event where
  /-- A call of `k_poll_signal_reset(&spi_done_sig)`. -/
  | sigReset
  /-- A call of `updateTxBuffer(msgBuf, len)`. -/
  | load (msgBuf : List Nat) (len : Nat)
  /-- A call of `spi_transceive_async` with the given `tx_buffer` contents and return value. -/
  | transceive (tx : List Nat) (ret : Int)
  /-- A completion wait loop exits, `k_poll_signal_check` having reported this result. -/
  | waitExit (spi_result : Int)
  deriving DecidableEq, Repr

/-- The mutable globals of `main.c` together with the state of the transport. -/
structure Dev where
  /-- The template arrays and `msgHasHours`. -/
  tpl : Templates
  /-- The global `tx_buffer`. -/
  tx_buffer : List Nat
  /-- The array `aucIscSequencerStartReq` of `isc_msgs.h`. -/
  aucIscSequencerStartReq : List Nat
  /-- The `signaled` flag of `spi_done_sig`. -/
  signaled : Bool
  /-- The `result` field of `spi_done_sig`. -/
  sigResult : Int
  /-- Accepted transfers whose completion has not yet raised the signal, oldest first. -/
  outstanding : List Nat
  /-- Number of `spi_transceive_async` calls made so far. -/
  calls : Nat
  /-- Everything done so far. -/
  trace : List Event
  deriving DecidableEq, Repr

/-- The state at program start: templates as initialised, buffers zeroed, signal clear. -/
def Dev.init (startReq : List Nat) : Dev :=
  { tpl := Templates.init
    tx_buffer := List.replicate sizeofTxBuffer 0
    aucIscSequencerStartReq := startReq
    signaled := false
    sigResult := 0
    outstanding := []
    calls := 0
    trace := [] }

/-- The call `updateTxBuffer(msgBuf, len)` on the device state. -/
def Dev.load (st : Dev) (msgBuf : List Nat) (len : Nat) : Except Fault Dev := do
  let tx ← updateTxBuffer st.tx_buffer msgBuf len
  pure { st with tx_buffer := tx, trace := st.trace ++ [.load msgBuf len] }

/-- The call `k_poll_signal_reset(&spi_done_sig)`: clears the flag. -/
def k_poll_signal_reset (st : Dev) : Dev :=
  { st with signaled := false, trace := st.trace ++ [.sigReset] }

/-- The call `spi_transceive_async(spi_dev, &spi_cfg, &tx, &rx, &spi_done_sig)`: the
transport sees the whole `tx_buffer`; the transfer is started iff the call returns 0. -/
def spi_transceive_async (tr : Transport) (st : Dev) : Int × Dev :=
  let ret := tr.rc st.calls
  (ret,
    { st with
      calls := st.calls + 1
      outstanding := if ret = 0 then st.outstanding ++ [st.calls] else st.outstanding
      trace := st.trace ++ [.transceive st.tx_buffer ret] })

/-- The loop `do { k_poll_signal_check(...); } while (spi_signaled == 0);`.  Its body only
re-reads the signal, so it is described by its exit: with the flag already raised it
exits at the first check (reporting the stored result, no transfer being awaited);
otherwise it spins until the oldest outstanding transfer completes and raises the flag;
with the flag clear and nothing outstanding it never exits. -/
def waitSpiDone (tr : Transport) (st : Dev) : Except Fault Dev :=
  if st.signaled then
    .ok { st with trace := st.trace ++ [.waitExit st.sigResult] }
  else
    match st.outstanding with
    | [] => .error .noReturn
    | k :: rest =>
      .ok { st with
            signaled := true
            sigResult := tr.result k
            outstanding := rest
            trace := st.trace ++ [.waitExit (tr.result k)] }

/-! ## The ISC handshakes (lines 265-388) -/

/-- The function `S1V3G340_Initialize_Audio_Config()`; the result is the returned `int`
and the new state. -/
def S1V3G340_Initialize_Audio_Config (m : IscMsgs) (tr : Transport) (st : Dev) :
    Except Fault (Int × Dev) := do
  -- send ISC_RESET_REQ
  let st ← st.load m.aucIscResetReq m.iIscResetReqLen
  let st := k_poll_signal_reset st
  let (error, st) := spi_transceive_async tr st
  if error ≠ 0 then pure (error, st) else do
  let st ← waitSpiDone tr st
  -- send ISC_TEST_REQ
  let st ← st.load m.aucIscTestReq m.iIscTestReqLen
  let (error, st) := spi_transceive_async tr st
  if error ≠ 0 then pure (error, st) else do
  let st ← waitSpiDone tr st
  -- send ISC_VERSION_REQ
  let st ← st.load m.aucIscVersionReq m.iIscVersionReqLen
  let (error, st) := spi_transceive_async tr st
  if error ≠ 0 then pure (error, st) else do
  let st ← waitSpiDone tr st
  -- send ISC_AUDIO_CONFIG_REQ
  let st ← st.load m.aucIscAudioConfigReq m.iIscAudioConfigReqLen
  let (error, st) := spi_transceive_async tr st
  if error ≠ 0 then pure (error, st) else do
  let st ← waitSpiDone tr st
  pure (0, st)

/-- The function `S1V3G340_Play_Specific_Audio(siac_data)`. -/
def S1V3G340_Play_Specific_Audio (m : IscMsgs) (tr : Transport) (st : Dev)
    (siac_data : List Nat) : Except Fault (Int × Dev) := do
  -- send ISC_SEQUENCER_CONFIG_REQ
  let t ← createIscSequencerConfigReq st.tpl siac_data
  let st := { st with tpl := t }
  let st ←
    if st.tpl.msgHasHours then
      st.load st.tpl.iscSequencerConfigReq sizeofIscSequencerConfigReq
    else
      st.load st.tpl.iscSequencerConfigReqWithoutHours sizeofIscSequencerConfigReqWithoutHours
  let (error, st) := spi_transceive_async tr st
  if error ≠ 0 then pure (error, st) else do
  let st ← waitSpiDone tr st
  -- aucIscSequencerStartReq[6] = 0; send ISC_SEQUENCER_START_REQ
  let a ← writeByte st.aucIscSequencerStartReq 6 0
  let st := { st with aucIscSequencerStartReq := a }
  let st ← st.load st.aucIscSequencerStartReq m.iIscSequencerStartReqLen
  let (error, st) := spi_transceive_async tr st
  if error ≠ 0 then pure (error, st) else do
  let st ← waitSpiDone tr st
  pure (0, st)

/-- The function `spi_write_test_msg(siac_data)`: both return values are discarded. -/
def spi_write_test_msg (m : IscMsgs) (tr : Transport) (st : Dev) (siac_data : List Nat) :
    Except Fault (Int × Dev) := do
  let (_, st) ← S1V3G340_Initialize_Audio_Config m tr st
  let (_, st) ← S1V3G340_Play_Specific_Audio m tr st siac_data
  pure (0, st)

/-! ## Advertisement filter (`scan_recv`, `observer.c` lines 73-167) -/

/-- The string literal `"SI Beacon"`. -/
def sportident_dev_id0 : List Nat := [83, 73, 32, 66, 101, 97, 99, 111, 110]

/-- The string literal `"SI"`. -/
def sportident_dev_id1 : List Nat := [83, 73]

/-- C `strstr(haystack, needle) != NULL` on the characters of two C strings. -/
def strstr : List Nat → List Nat → Bool
  | [], needle => needle.isEmpty
  | c :: rest, needle => needle.isPrefixOf (c :: rest) || strstr rest needle

/-- The callback `scan_recv(info, buf)`.  `adv_type` is `info->adv_type`, `data` the
`buf->len` bytes at `buf->data`, and `name` the characters of the C string that
`bt_data_parse(buf, data_cb, name)` leaves in the local `name`.  `handler` stands for the
call `spi_write_test_msg(siac_data)` acting on state `s`; the debug output is compiled
out (`DEBUG_ENABLE` is 0). -/
def scan_recv {σ : Type} (handler : List Nat → σ → Except Fault σ) (adv_type : Nat)
    (data : List Nat) (name : List Nat) (s : σ) : Except Fault σ :=
  -- memset(scan_data, 0, 100); memcpy(scan_data, buf->data, data_len);
  if data.length ≤ 100 then
    let scan_data := data ++ List.replicate (100 - data.length) 0
    if adv_type = 2 then
      if (scan_data.getD 0 0 = 0x02 ∧ scan_data.getD 1 0 = 0x01 ∧ scan_data.getD 2 0 = 0x04) ∨
          (strstr name sportident_dev_id0 = true ∨ strstr name sportident_dev_id1 = true) then
        if scan_data.getD 6 0 = 0xFF then
          let siac_data :=
            [scan_data.getD 7 0, scan_data.getD 8 0, scan_data.getD 9 0, scan_data.getD 10 0,
             scan_data.getD 11 0, scan_data.getD 12 0, scan_data.getD 13 0]
          handler siac_data s
        else .ok s
      else .ok s
    else .ok s
  else .error (.outOfBounds 100)

/-- The handler that `scan_recv` is registered with: `spi_write_test_msg`, its `int`
result being ignored by the caller. -/
def playHandler (m : IscMsgs) (tr : Transport) (siac_data : List Nat) (st : Dev) :
    Except Fault Dev :=
  (spi_write_test_msg m tr st siac_data).map Prod.snd

/-! ## Trace projections -/

/-- The `spi_transceive_async` calls of a trace: transmitted frame and return value. -/
def transceives : List Event → List (List Nat × Int)
  | [] => []
  | .transceive tx ret :: es => (tx, ret) :: transceives es
  | _ :: es => transceives es

/-- A request padded with zeros to the size of `tx_buffer`. -/
def frame (msgBuf : List Nat) (len : Nat) : List Nat :=
  msgBuf.take len ++ List.replicate (sizeofTxBuffer - len) 0

/-- Sample request bodies, standing in for `isc_msgs.h` in concrete evaluations. -/
def sampleMsgs : IscMsgs :=
  { aucIscResetReq := [0x00, 0xAA, 0x04, 0x00, 0x01, 0x00]
    iIscResetReqLen := 6
    aucIscTestReq := [0x00, 0xAA, 0x04, 0x00, 0x03, 0x00]
    iIscTestReqLen := 6
    aucIscVersionReq := [0x00, 0xAA, 0x04, 0x00, 0x05, 0x00]
    iIscVersionReqLen := 6
    aucIscAudioConfigReq := [0x00, 0xAA, 0x0C, 0x00, 0x09, 0x00, 0x43, 0x00]
    iIscAudioConfigReqLen := 8
    iIscSequencerStartReqLen := 8 }

/-- A sample `aucIscSequencerStartReq`. -/
def sampleStartReq : List Nat := [0x00, 0xAA, 0x06, 0x00, 0xC6, 0x00, 0x01, 0x00]

/-- A transport that accepts every transfer and completes it with status 0. -/
def okTransport : Transport := { rc := fun _ => 0, result := fun _ => 0 }

/-- A transport that accepts every transfer but completes it with status -5 (`-EIO`). -/
def failingCompletionTransport : Transport := { rc := fun _ => 0, result := fun _ => -5 }

/-- An advertisement payload as sent by the beacon (`multiple_adv_sets/src/main.c`): flags
`02 01 04`, then manufacturer data `0E FF FF FF 07 <control> <hours> <minutes> ...`; here
control 1, hours 1, minutes 15. -/
def samplePayload : List Nat :=
  [0x02, 0x01, 0x04, 0x0E, 0xFF, 0xFF, 0xFF, 0x07, 0x01, 0x01, 0x0F, 0x00, 0x00, 0x00,
   0x00, 0x00, 0x00, 0x01]

/-- A handler that only records the slices it is called with. -/
def recordCall (siac_data : List Nat) (log : List (List Nat)) : Except Fault (List (List Nat)) :=
  .ok (log ++ [siac_data])

/-- A transport that rejects its first transfer with -5 (`-EIO`) and accepts all later
ones. -/
def rejectFirstTransport : Transport :=
  { rc := fun k => if k = 0 then -5 else 0, result := fun _ => 0 }

/-- A transport that accepts its first transfer, rejects the second with -5 (`-EIO`) and
accepts all later ones. -/
def rejectSecondTransport : Transport :=
  { rc := fun k => if k = 1 then -5 else 0, result := fun _ => 0 }

/-- A transport that accepts every transfer and completes transfer `k` with status
`100 + k`, so that a reported result tells which transfer raised the signal. -/
def taggedTransport : Transport := { rc := fun _ => 0, result := fun k => 100 + (k : Int) }

/-- The results reported at the exits of the completion waits of a trace, in order. -/
def waitResults : List Event → List Int
  | [] => []
  | .waitExit r :: es => r :: waitResults es
  | _ :: es => waitResults es

/-- The number of `k_poll_signal_reset` calls in a trace. -/
def resetCount : List Event → Nat
  | [] => 0
  | .sigReset :: es => resetCount es + 1
  | _ :: es => resetCount es

/-- The trace property "the completion flag is cleared between the end of one completion
wait and the next transceive": `raised` tells whether a wait has exited (so the flag is
set) since the last `k_poll_signal_reset`; a transceive issued while `raised` violates the
property. -/
def clearedBetweenWaits : Bool → List Event → Bool
  | _, [] => true
  | _, .sigReset :: es => clearedBetweenWaits false es
  | _, .waitExit _ :: es => clearedBetweenWaits true es
  | raised, .transceive _ _ :: es => !raised && clearedBetweenWaits raised es
  | raised, .load _ _ :: es => clearedBetweenWaits raised es

/-- The wire format of a SequencerConfig request `a`: header `00 AA`, byte 2 the total
length minus 2, byte 8 the number of file events `(length - 10) / 8`, then one 8-byte
group `00 00 01 00 03 00 <code> 00` per file event from offset 10 on, with the fixed
phrase codes 0xCA at offset 16 and 0xCB at offset 32. -/
def WireFormat (a : List Nat) : Prop :=
  a[0]? = some 0x00 ∧ a[1]? = some 0xAA ∧
  a[2]? = some (a.length - 2) ∧
  a[8]? = some ((a.length - 10) / 8) ∧
  (∀ g, g < (a.length - 10) / 8 →
    a[10 + 8 * g]? = some 0x00 ∧ a[10 + 8 * g + 1]? = some 0x00 ∧
    a[10 + 8 * g + 2]? = some 0x01 ∧ a[10 + 8 * g + 3]? = some 0x00 ∧
    a[10 + 8 * g + 4]? = some 0x03 ∧ a[10 + 8 * g + 5]? = some 0x00 ∧
    (∃ code, a[10 + 8 * g + 6]? = some code) ∧ a[10 + 8 * g + 7]? = some 0x00) ∧
  a[16]? = some 0xCA ∧ a[32]? = some 0xCB

/-! ## Reference behaviour of the handshakes -/

/-- Lines 342-350 of `S1V3G340_Play_Specific_Audio`: the state after the builder has run
and the selected template has been loaded. -/
def configLoaded (st : Dev) (f : SiacFields) : Dev :=
  { st with
    tpl := patchTemplates st.tpl f
    tx_buffer := frame (sequencerConfigMsg (patchTemplates st.tpl f)).1
      (sequencerConfigMsg (patchTemplates st.tpl f)).2
    trace := st.trace ++ [.load (sequencerConfigMsg (patchTemplates st.tpl f)).1
      (sequencerConfigMsg (patchTemplates st.tpl f)).2] }

/-- The transceives of a handshake that sends the given frames in order, the `c`-th call
of the transport being the first, and stops after the first call that returns non-zero. -/
def abortingSeq (rc : Nat → Int) : Nat → List (List Nat) → List (List Nat × Int)
  | _, [] => []
  | c, fr :: rest => (fr, rc c) :: (if rc c ≠ 0 then [] else abortingSeq rc (c + 1) rest)

/-- The value returned by such a handshake: the first non-zero return code, else 0. -/
def abortingRet (rc : Nat → Int) : Nat → Nat → Int
  | _, 0 => 0
  | c, n + 1 => if rc c ≠ 0 then rc c else abortingRet rc (c + 1) n

/-- The four frames of the initialization sequence, in program order. -/
def initFrames (m : IscMsgs) : List (List Nat) :=
  [frame m.aucIscResetReq m.iIscResetReqLen, frame m.aucIscTestReq m.iIscTestReqLen,
   frame m.aucIscVersionReq m.iIscVersionReqLen,
   frame m.aucIscAudioConfigReq m.iIscAudioConfigReqLen]

/-- The two frames of the playback sequence for fields `f` built in state `st`:
SequencerConfig (the selected, patched template) and SequencerStart (with byte 6 zeroed). -/
def playFrames (m : IscMsgs) (st : Dev) (f : SiacFields) : List (List Nat) :=
  [frame (sequencerConfigMsg (patchTemplates st.tpl f)).1
     (sequencerConfigMsg (patchTemplates st.tpl f)).2,
   frame (st.aucIscSequencerStartReq.set 6 0) m.iIscSequencerStartReqLen]

/-! ## Well-formedness -/

/-- Every request length of `isc_msgs.h` fits its array and the transmit buffer. -/
def IscMsgs.WF (m : IscMsgs) : Prop :=
  (m.iIscResetReqLen ≤ m.aucIscResetReq.length ∧ m.iIscResetReqLen ≤ sizeofTxBuffer) ∧
  (m.iIscTestReqLen ≤ m.aucIscTestReq.length ∧ m.iIscTestReqLen ≤ sizeofTxBuffer) ∧
  (m.iIscVersionReqLen ≤ m.aucIscVersionReq.length ∧ m.iIscVersionReqLen ≤ sizeofTxBuffer) ∧
  (m.iIscAudioConfigReqLen ≤ m.aucIscAudioConfigReq.length ∧
    m.iIscAudioConfigReqLen ≤ sizeofTxBuffer)

instance (m : IscMsgs) : Decidable m.WF := by
  unfold IscMsgs.WF; infer_instance

/-- The arrays of the state have their declared sizes, and the start request has room for
the byte written at offset 6 and for its declared length. -/
def Dev.WF (m : IscMsgs) (st : Dev) : Prop :=
  st.tx_buffer.length = sizeofTxBuffer ∧
  st.tpl.iscSequencerConfigReq.length = sizeofIscSequencerConfigReq ∧
  st.tpl.iscSequencerConfigReqWithoutHours.length = sizeofIscSequencerConfigReqWithoutHours ∧
  6 < st.aucIscSequencerStartReq.length ∧
  m.iIscSequencerStartReqLen ≤ st.aucIscSequencerStartReq.length ∧
  m.iIscSequencerStartReqLen ≤ sizeofTxBuffer

instance (m : IscMsgs) (st : Dev) : Decidable (st.WF m) := by
  unfold Dev.WF; infer_instance

/-- Structure invariant of the two template arrays: sizes as declared, and every byte
outside the patched offsets as initialised. -/
def Templates.Inv (t : Templates) : Prop :=
  t.iscSequencerConfigReq.length = sizeofIscSequencerConfigReq ∧
  t.iscSequencerConfigReqWithoutHours.length = sizeofIscSequencerConfigReqWithoutHours ∧
  (∀ i, i ≠ 24 → i ≠ 40 → i ≠ 48 → t.iscSequencerConfigReq[i]? = SIVoice.iscSequencerConfigReq[i]?) ∧
  (∀ i, i ≠ 24 → i ≠ 40 → t.iscSequencerConfigReqWithoutHours[i]? =
    SIVoice.iscSequencerConfigReqWithoutHours[i]?)

/-! ## Lemmas: buffers -/

theorem sizeofIscSequencerConfigReq_eq : sizeofIscSequencerConfigReq = 50 := by decide

theorem sizeofIscSequencerConfigReqWithoutHours_eq :
    sizeofIscSequencerConfigReqWithoutHours = 42 := by decide

theorem readByte_of_lt {a : List Nat} {i : Nat} (h : i < a.length) :
    readByte a i = .ok a[i] := by
  simp [readByte, List.getElem?_eq_getElem h]

theorem readByte_of_le {a : List Nat} {i : Nat} (h : a.length ≤ i) :
    readByte a i = .error (.outOfBounds i) := by
  simp [readByte, List.getElem?_eq_none h]

theorem copyLoop_spec (msgBuf : List Nat) :
    ∀ (k i : Nat) (tx : List Nat), i + k ≤ msgBuf.length → i + k ≤ tx.length →
      ∃ r, copyLoop msgBuf k i tx = .ok r ∧ r.length = tx.length ∧
        ∀ j, r[j]? = if i ≤ j ∧ j < i + k then msgBuf[j]? else tx[j]? := by
  intro k
  induction k with
  | zero =>
    intro i tx _ _
    refine ⟨tx, rfl, rfl, fun j => ?_⟩
    have : ¬ (i ≤ j ∧ j < i + 0) := by omega
    rw [if_neg this]
  | succ k ih =>
    intro i tx hm ht
    have him : i < msgBuf.length := by omega
    have hit : i < tx.length := by omega
    obtain ⟨r, hr, hlen, hget⟩ := ih (i + 1) (tx.set i msgBuf[i])
      (by omega) (by simp only [List.length_set]; omega)
    refine ⟨r, ?_, ?_, fun j => ?_⟩
    · simp only [copyLoop, readByte_of_lt him, writeByte, hit, if_true, bind, Except.bind]
      exact hr
    · simpa using hlen
    · rw [hget j, List.getElem?_set]
      by_cases hij : i = j
      · subst hij
        have h1 : ¬ (i + 1 ≤ i ∧ i < i + 1 + k) := by omega
        have h2 : i ≤ i ∧ i < i + (k + 1) := by omega
        simp [h1, h2, hit, List.getElem?_eq_getElem him]
      · by_cases hc : i + 1 ≤ j ∧ j < i + 1 + k
        · have h2 : i ≤ j ∧ j < i + (k + 1) := by omega
          simp [hc, h2]
        · have h2 : ¬ (i ≤ j ∧ j < i + (k + 1)) := by omega
          simp [hc, h2, hij]

theorem clearLoop_spec :
    ∀ (k j : Nat) (tx : List Nat),
      (clearLoop k j tx).length = tx.length ∧
        ∀ x, (clearLoop k j tx)[x]? =
          if j ≤ x ∧ x < j + k ∧ x < tx.length then some 0 else tx[x]? := by
  intro k
  induction k with
  | zero =>
    intro j tx
    refine ⟨rfl, fun x => ?_⟩
    have : ¬ (j ≤ x ∧ x < j + 0 ∧ x < tx.length) := by omega
    rw [if_neg this]
    rfl
  | succ k ih =>
    intro j tx
    obtain ⟨hlen, hget⟩ := ih (j + 1) (tx.set j 0)
    refine ⟨by simpa [clearLoop] using hlen, fun x => ?_⟩
    simp only [clearLoop]
    rw [hget x, List.getElem?_set, List.length_set]
    by_cases hjx : j = x
    · subst hjx
      by_cases hl : j < tx.length
      · have h1 : ¬ (j + 1 ≤ j ∧ j < j + 1 + k ∧ j < tx.length) := by omega
        have h2 : j ≤ j ∧ j < j + (k + 1) ∧ j < tx.length := by omega
        simp [h1, h2, hl]
      · have h1 : ¬ (j + 1 ≤ j ∧ j < j + 1 + k ∧ j < tx.length) := by omega
        have h2 : ¬ (j ≤ j ∧ j < j + (k + 1) ∧ j < tx.length) := by omega
        simp [h1, h2, hl, List.getElem?_eq_none (Nat.le_of_not_lt hl)]
    · by_cases hc : j + 1 ≤ x ∧ x < j + 1 + k ∧ x < tx.length
      · have h2 : j ≤ x ∧ x < j + (k + 1) ∧ x < tx.length := by omega
        simp [hc, h2]
      · have h2 : ¬ (j ≤ x ∧ x < j + (k + 1) ∧ x < tx.length) := by omega
        simp [hc, h2, hjx]

theorem frame_length {msgBuf : List Nat} {len : Nat} (h1 : len ≤ msgBuf.length)
    (h2 : len ≤ sizeofTxBuffer) : (frame msgBuf len).length = sizeofTxBuffer := by
  simp only [frame, List.length_append, List.length_take, List.length_replicate]
  omega

/-- With a length that fits both the message and the buffer, `updateTxBuffer` leaves exactly
the zero-padded message in the buffer, whatever the buffer held before. -/
theorem updateTxBuffer_eq {tx msgBuf : List Nat} {len : Nat}
    (htx : tx.length = sizeofTxBuffer) (h1 : len ≤ msgBuf.length)
    (h2 : len ≤ sizeofTxBuffer) :
    updateTxBuffer tx msgBuf len = .ok (frame msgBuf len) := by
  obtain ⟨r, hr, hlen, hget⟩ := copyLoop_spec msgBuf len 0 tx (by omega) (by omega)
  obtain ⟨clen, cget⟩ := clearLoop_spec (sizeofTxBuffer - len) len r
  simp only [updateTxBuffer, hr, bind, Except.bind, pure, Except.pure]
  congr 1
  apply List.ext_getElem?
  intro x
  rw [cget x, hget x]
  simp only [frame, List.getElem?_append, List.length_take, List.getElem?_take,
    List.getElem?_replicate, hlen, htx]
  have hmin : min len msgBuf.length = len := Nat.min_eq_left h1
  rw [hmin]
  by_cases hx : x < len
  · have h3 : ¬ (len ≤ x ∧ x < len + (sizeofTxBuffer - len) ∧ x < sizeofTxBuffer) := by omega
    have h4 : 0 ≤ x ∧ x < 0 + len := by omega
    simp [hx, h3, h4]
  · by_cases hx2 : x < sizeofTxBuffer
    · have h3 : len ≤ x ∧ x < len + (sizeofTxBuffer - len) ∧ x < sizeofTxBuffer := by omega
      have h5 : x - len < sizeofTxBuffer - len := by omega
      simp [hx, h3, h5]
    · have h3 : ¬ (len ≤ x ∧ x < len + (sizeofTxBuffer - len) ∧ x < sizeofTxBuffer) := by omega
      have h4 : ¬ (0 ≤ x ∧ x < 0 + len) := by omega
      have h5 : ¬ (x - len < sizeofTxBuffer - len) := by omega
      simp [hx, h3, h4, h5, List.getElem?_eq_none (by omega : tx.length ≤ x)]

theorem Dev.load_eq (st : Dev) (msgBuf : List Nat) (len : Nat)
    (htx : st.tx_buffer.length = sizeofTxBuffer) (h1 : len ≤ msgBuf.length)
    (h2 : len ≤ sizeofTxBuffer) :
    st.load msgBuf len =
      .ok { st with tx_buffer := frame msgBuf len, trace := st.trace ++ [.load msgBuf len] } := by
  simp [Dev.load, updateTxBuffer_eq htx h1 h2, bind, Except.bind, pure, Except.pure]


/-! ## Lemmas: templates -/

theorem createIscSequencerConfigReq_eq {t : Templates} {siac_data : List Nat} {f : SiacFields}
    (hf : extractSiacFields siac_data = .ok f) :
    createIscSequencerConfigReq t siac_data = .ok (patchTemplates t f) := by
  simp [createIscSequencerConfigReq, hf, bind, Except.bind, pure, Except.pure]

theorem patchTemplates_msgHasHours (t : Templates) (f : SiacFields) :
    (patchTemplates t f).msgHasHours = decide (f.hours ≠ 0) := by
  unfold patchTemplates
  split <;> simp_all

theorem patchTemplates_length (t : Templates) (f : SiacFields) :
    (patchTemplates t f).iscSequencerConfigReq.length = t.iscSequencerConfigReq.length ∧
      (patchTemplates t f).iscSequencerConfigReqWithoutHours.length = t.iscSequencerConfigReqWithoutHours.length := by
  unfold patchTemplates
  split <;> simp

theorem sequencerConfigMsg_patch (t : Templates) (f : SiacFields) :
    sequencerConfigMsg (patchTemplates t f) =
      if f.hours = 0 then
        ((patchTemplates t f).iscSequencerConfigReqWithoutHours, sizeofIscSequencerConfigReqWithoutHours)
      else ((patchTemplates t f).iscSequencerConfigReq, sizeofIscSequencerConfigReq) := by
  unfold sequencerConfigMsg
  rw [patchTemplates_msgHasHours]
  by_cases h : f.hours = 0 <;> simp [h]

theorem sequencerConfigMsg_fits {t : Templates}
    (h1 : t.iscSequencerConfigReq.length = sizeofIscSequencerConfigReq)
    (h2 : t.iscSequencerConfigReqWithoutHours.length = sizeofIscSequencerConfigReqWithoutHours) :
    (sequencerConfigMsg t).2 ≤ (sequencerConfigMsg t).1.length ∧
      (sequencerConfigMsg t).2 ≤ sizeofTxBuffer := by
  unfold sequencerConfigMsg
  split
  · simp only [h1, sizeofIscSequencerConfigReq_eq, sizeofTxBuffer]; omega
  · simp only [h2, sizeofIscSequencerConfigReqWithoutHours_eq, sizeofTxBuffer]; omega

/-! ## Lemmas: the playback handshake -/

theorem play_unfold {m : IscMsgs} {tr : Transport} {st : Dev} {siac_data : List Nat}
    {f : SiacFields} (hf : extractSiacFields siac_data = .ok f) (hwf : st.WF m) :
    S1V3G340_Play_Specific_Audio m tr st siac_data =
      (let p := spi_transceive_async tr (configLoaded st f)
       if p.1 ≠ 0 then pure (p.1, p.2) else do
         let st ← waitSpiDone tr p.2
         let a ← writeByte st.aucIscSequencerStartReq 6 0
         let st := { st with aucIscSequencerStartReq := a }
         let st ← st.load st.aucIscSequencerStartReq m.iIscSequencerStartReqLen
         let q := spi_transceive_async tr st
         if q.1 ≠ 0 then pure (q.1, q.2) else do
           let st ← waitSpiDone tr q.2
           pure (0, st)) := by
  obtain ⟨htx, hw, hwo, -, -, -⟩ := hwf
  have hl := patchTemplates_length st.tpl f
  have hfit := sequencerConfigMsg_fits (t := patchTemplates st.tpl f)
    (by rw [hl.1, hw]) (by rw [hl.2, hwo])
  have hload := Dev.load_eq { st with tpl := patchTemplates st.tpl f }
    (sequencerConfigMsg (patchTemplates st.tpl f)).1
    (sequencerConfigMsg (patchTemplates st.tpl f)).2 htx hfit.1 hfit.2
  unfold S1V3G340_Play_Specific_Audio
  rw [createIscSequencerConfigReq_eq hf]
  simp only [bind, Except.bind]
  have hload2 : Dev.load { st with tpl := patchTemplates st.tpl f }
      (sequencerConfigMsg (patchTemplates st.tpl f)).1
      (sequencerConfigMsg (patchTemplates st.tpl f)).2 = .ok (configLoaded st f) := hload
  split
  · next h =>
    have e : sequencerConfigMsg (patchTemplates st.tpl f) =
        ((patchTemplates st.tpl f).iscSequencerConfigReq, sizeofIscSequencerConfigReq) := by
      simp [sequencerConfigMsg, h]
    rw [e] at hload2
    rw [hload2]
  · next h =>
    have e : sequencerConfigMsg (patchTemplates st.tpl f) =
        ((patchTemplates st.tpl f).iscSequencerConfigReqWithoutHours, sizeofIscSequencerConfigReqWithoutHours) := by
      simp [sequencerConfigMsg, h]
    rw [e] at hload2
    rw [hload2]

theorem waitSpiDone_ok (tr : Transport) (st : Dev)
    (h : st.signaled = true ∨ st.outstanding ≠ []) :
    ∃ r o, waitSpiDone tr st =
      .ok { st with
            signaled := true, sigResult := r, outstanding := o
            trace := st.trace ++ [.waitExit r] } := by
  obtain ⟨tpl, tx, sreq, sig, sres, outs, calls, trace⟩ := st
  cases sig with
  | true => exact ⟨sres, outs, by simp [waitSpiDone]⟩
  | false =>
    cases outs with
    | nil => simp at h
    | cons k rest => exact ⟨tr.result k, rest, by simp [waitSpiDone]⟩

theorem play_rejected {m : IscMsgs} {tr : Transport} {st : Dev} {siac_data : List Nat}
    {f : SiacFields} (hf : extractSiacFields siac_data = .ok f) (hwf : st.WF m)
    (hrc : tr.rc st.calls ≠ 0) :
    ∃ st', S1V3G340_Play_Specific_Audio m tr st siac_data = .ok (tr.rc st.calls, st') ∧
      st'.tpl = patchTemplates st.tpl f ∧
      st'.trace = (configLoaded st f).trace ++
        [.transceive (configLoaded st f).tx_buffer (tr.rc st.calls)] := by
  rw [play_unfold hf hwf]
  simp [spi_transceive_async, configLoaded, hrc, pure, Except.pure]

theorem play_accepted {m : IscMsgs} {tr : Transport} {st : Dev} {siac_data : List Nat}
    {f : SiacFields} (hf : extractSiacFields siac_data = .ok f) (hwf : st.WF m)
    (hrc : tr.rc st.calls = 0) :
    ∃ st' r tail, S1V3G340_Play_Specific_Audio m tr st siac_data =
        .ok (tr.rc (st.calls + 1), st') ∧
      st'.tpl = patchTemplates st.tpl f ∧
      st'.trace = (configLoaded st f).trace ++
        [.transceive (configLoaded st f).tx_buffer 0, .waitExit r,
         .load (st.aucIscSequencerStartReq.set 6 0) m.iIscSequencerStartReqLen,
         .transceive (frame (st.aucIscSequencerStartReq.set 6 0) m.iIscSequencerStartReqLen)
           (tr.rc (st.calls + 1))] ++ tail ∧
      transceives tail = [] := by
  rw [play_unfold hf hwf]
  obtain ⟨htx, hw, hwo, h6, hs1, hs2⟩ := hwf
  obtain ⟨r, o, hwait⟩ := waitSpiDone_ok tr (spi_transceive_async tr (configLoaded st f)).2
    (Or.inr (by simp [spi_transceive_async, configLoaded, hrc]))
  have hwr : writeByte st.aucIscSequencerStartReq 6 0 =
      .ok (st.aucIscSequencerStartReq.set 6 0) := by simp [writeByte, h6]
  have hp1 : (spi_transceive_async tr (configLoaded st f)).1 = 0 := by
    simp [spi_transceive_async, configLoaded, hrc]
  have hfl := patchTemplates_length st.tpl f
  have hfit := sequencerConfigMsg_fits (t := patchTemplates st.tpl f)
    (by rw [hfl.1, hw]) (by rw [hfl.2, hwo])
  simp only [hp1, ne_eq, not_true_eq_false, if_false, bind, Except.bind, hwait]
  have hsreq : (spi_transceive_async tr (configLoaded st f)).2.aucIscSequencerStartReq =
      st.aucIscSequencerStartReq := rfl
  simp only [hsreq, hwr]
  rw [Dev.load_eq _ _ _ (by exact frame_length hfit.1 hfit.2) (by simpa using hs1) hs2]
  have hcalls : (configLoaded st f).calls = st.calls := rfl
  by_cases h2 : tr.rc (st.calls + 1) = 0
  · rw [h2]
    simp only [spi_transceive_async, hcalls, h2, not_true_eq_false, if_false, waitSpiDone,
      if_true, pure, Except.pure]
    refine ⟨_, r, [.waitExit r], rfl, rfl, ?_, rfl⟩
    simp [configLoaded, hrc]
  · simp only [spi_transceive_async, hcalls, h2, not_false_eq_true, if_true, pure, Except.pure]
    refine ⟨_, r, [], rfl, rfl, ?_, rfl⟩
    simp [configLoaded, hrc]

/-! ## Lemmas: the initialization handshake -/

theorem transceives_append (a b : List Event) :
    transceives (a ++ b) = transceives a ++ transceives b := by
  induction a with
  | nil => rfl
  | cons e es ih => cases e <;> simp [transceives, ih]

theorem init_spec {m : IscMsgs} (tr : Transport) {st : Dev} (hm : m.WF)
    (htx : st.tx_buffer.length = sizeofTxBuffer) :
    ∃ st', S1V3G340_Initialize_Audio_Config m tr st =
        .ok (abortingRet tr.rc st.calls 4, st') ∧
      st'.tpl = st.tpl ∧ st'.aucIscSequencerStartReq = st.aucIscSequencerStartReq ∧
      st'.tx_buffer.length = sizeofTxBuffer ∧
      st'.calls = st.calls + (abortingSeq tr.rc st.calls (initFrames m)).length ∧
      transceives st'.trace =
        transceives st.trace ++ abortingSeq tr.rc st.calls (initFrames m) := by
  obtain ⟨⟨ha1, ha2⟩, ⟨hb1, hb2⟩, ⟨hc1, hc2⟩, ⟨hd1, hd2⟩⟩ := hm
  have fa := frame_length ha1 ha2
  have fb := frame_length hb1 hb2
  have fc := frame_length hc1 hc2
  have fd := frame_length hd1 hd2
  obtain ⟨tpl, tx, sreq, sig, sres, outs, calls, trace⟩ := st
  simp only at htx
  unfold S1V3G340_Initialize_Audio_Config
  rw [Dev.load_eq _ _ _ htx ha1 ha2]
  simp only [bind, Except.bind, k_poll_signal_reset, spi_transceive_async]
  by_cases h0 : tr.rc calls = 0
  · cases outs <;> by_cases h1 : tr.rc (calls + 1) = 0 <;>
      by_cases h2 : tr.rc (calls + 1 + 1) = 0 <;>
      by_cases h3 : tr.rc (calls + 1 + 1 + 1) = 0 <;>
      simp [h0, h1, h2, h3, waitSpiDone, Dev.load_eq, fa, fb, fc, fd, ha1, ha2, hb1, hb2,
        hc1, hc2, hd1, hd2, abortingRet, abortingSeq, initFrames, transceives_append,
        transceives, pure, Except.pure]
  · simp [h0, abortingRet, abortingSeq, initFrames, transceives_append, transceives, fa,
      pure, Except.pure]

/-! ## Lemmas: patched bytes -/

theorem controlMsgCode_eq (c : Nat) : controlMsgCode c = (c + 141) % 256 := rfl

theorem minutesMsgcode_eq (mi : Nat) : minutesMsgcode mi = (mi + 23) % 256 := rfl

theorem hoursMsgCode_int (h : Nat) : (hoursMsgCode h : Int) = ((h : Int) - 1) % 256 := by
  unfold hoursMsgCode
  exact Int.toNat_of_nonneg (Int.emod_nonneg _ (by decide))

theorem hoursMsgCode_of_pos {h : Nat} (h0 : h ≠ 0) (h1 : h < 256) : hoursMsgCode h = h - 1 := by
  have e := hoursMsgCode_int h
  have e2 : ((h : Int) - 1) % 256 = (h : Int) - 1 :=
    Int.emod_eq_of_lt (by omega) (by omega)
  omega

theorem patch_withHours_bytes {t : Templates} {f : SiacFields}
    (h1 : t.iscSequencerConfigReq.length = sizeofIscSequencerConfigReq) (hh : f.hours ≠ 0) :
    (patchTemplates t f).iscSequencerConfigReq[24]? = some (controlMsgCode f.controlNumber) ∧
      (patchTemplates t f).iscSequencerConfigReq[40]? = some (hoursMsgCode f.hours) ∧
      (patchTemplates t f).iscSequencerConfigReq[48]? = some (minutesMsgcode f.minutes) ∧
      (patchTemplates t f).iscSequencerConfigReqWithoutHours = t.iscSequencerConfigReqWithoutHours := by
  rw [sizeofIscSequencerConfigReq_eq] at h1
  simp [patchTemplates, hh, List.getElem?_set, h1]

theorem patch_withoutHours_bytes {t : Templates} {f : SiacFields}
    (h2 : t.iscSequencerConfigReqWithoutHours.length = sizeofIscSequencerConfigReqWithoutHours) (hh : f.hours = 0) :
    (patchTemplates t f).iscSequencerConfigReqWithoutHours[24]? = some (controlMsgCode f.controlNumber) ∧
      (patchTemplates t f).iscSequencerConfigReqWithoutHours[40]? = some (minutesMsgcode f.minutes) ∧
      (patchTemplates t f).iscSequencerConfigReq = t.iscSequencerConfigReq := by
  rw [sizeofIscSequencerConfigReqWithoutHours_eq] at h2
  simp [patchTemplates, hh, List.getElem?_set, h2]

theorem Templates.inv_init : Templates.init.Inv :=
  ⟨rfl, rfl, fun _ _ _ _ => rfl, fun _ _ _ => rfl⟩

theorem Templates.inv_patch {t : Templates} (h : t.Inv) (f : SiacFields) :
    (patchTemplates t f).Inv := by
  obtain ⟨h1, h2, h3, h4⟩ := h
  unfold patchTemplates
  split
  · refine ⟨h1, by simpa using h2, h3, fun i a b => ?_⟩
    simp only [List.getElem?_set, List.length_set]
    rw [if_neg (Ne.symm b), if_neg (Ne.symm a)]
    exact h4 i a b
  · refine ⟨by simpa using h1, h2, fun i a b c => ?_, h4⟩
    simp only [List.getElem?_set, List.length_set]
    rw [if_neg (Ne.symm c), if_neg (Ne.symm b), if_neg (Ne.symm a)]
    exact h3 i a b c

theorem Templates.inv_foldl (history : List SiacFields) :
    ∀ t : Templates, t.Inv → (history.foldl patchTemplates t).Inv := by
  induction history with
  | nil => intro t h; exact h
  | cons f fs ih => intro t h; exact ih _ (Templates.inv_patch h f)

/-- Two template states that satisfy the structure invariant give the same message for the
same fields. -/
theorem sequencerConfigMsg_patch_congr {t u : Templates} (ht : t.Inv) (hu : u.Inv)
    (f : SiacFields) :
    sequencerConfigMsg (patchTemplates t f) = sequencerConfigMsg (patchTemplates u f) := by
  rw [sequencerConfigMsg_patch, sequencerConfigMsg_patch]
  obtain ⟨t1, t2, t3, t4⟩ := ht
  obtain ⟨u1, u2, u3, u4⟩ := hu
  rw [sizeofIscSequencerConfigReq_eq] at t1 u1
  rw [sizeofIscSequencerConfigReqWithoutHours_eq] at t2 u2
  by_cases hh : f.hours = 0
  · simp only [hh, if_true, Prod.mk.injEq, and_true]
    apply List.ext_getElem?
    intro i
    simp only [patchTemplates, hh, if_true, List.getElem?_set, List.length_set, t2, u2]
    by_cases a : 40 = i
    · simp [a]
    · by_cases b : 24 = i
      · simp [a, b]
      · simp only [a, b, if_false]
        rw [t4 i (Ne.symm b) (Ne.symm a), u4 i (Ne.symm b) (Ne.symm a)]
  · simp only [hh, if_false, Prod.mk.injEq, and_true]
    apply List.ext_getElem?
    intro i
    simp only [patchTemplates, hh, if_false, List.getElem?_set, List.length_set, t1, u1]
    by_cases c : 48 = i
    · simp [c]
    · by_cases a : 40 = i
      · simp [a, c]
      · by_cases b : 24 = i
        · simp [a, b, c]
        · simp only [a, b, c, if_false]
          rw [t3 i (Ne.symm b) (Ne.symm a) (Ne.symm c), u3 i (Ne.symm b) (Ne.symm a) (Ne.symm c)]

/-! ## C1: template selection and message length -/

/-- C1, as stated, fails: for the fields (control 2, hours 0, minutes 30) the message that
`S1V3G340_Play_Specific_Audio` loads is the WithoutHours template with length 42, not 44,
and for (control 1, hours 1, minutes 15) it is the WithHours template with length 50,
not 52. -/
theorem sequencerConfig_length_not_44_52 :
    ¬ ((sequencerConfigMsg (patchTemplates Templates.init ⟨2, 0, 30⟩)).2 = 44) ∧
    ¬ ((sequencerConfigMsg (patchTemplates Templates.init ⟨1, 1, 15⟩)).2 = 52) ∧
    (S1V3G340_Play_Specific_Audio sampleMsgs okTransport (Dev.init sampleStartReq)
        [7, 2, 0, 30, 0, 0, 0]).map (fun p => p.2.trace.head?) =
      .ok (some (.load (patchTemplates Templates.init ⟨2, 0, 30⟩).iscSequencerConfigReqWithoutHours 42)) ∧
    (S1V3G340_Play_Specific_Audio sampleMsgs okTransport (Dev.init sampleStartReq)
        [7, 1, 1, 15, 0, 0, 0]).map (fun p => p.2.trace.head?) =
      .ok (some (.load (patchTemplates Templates.init ⟨1, 1, 15⟩).iscSequencerConfigReq 50)) := by
  refine ⟨by decide, by decide, ?_, ?_⟩ <;> rfl

/-- C1, amended: for every field triple, when `hours == 0` the SequencerConfig message is
the WithoutHours template and its length is 42 bytes, and when `hours != 0` it is the
WithHours template and its length is 50 bytes (the `sizeof` of the selected array); this
message is what `S1V3G340_Play_Specific_Audio` loads into the transmit buffer and puts on
the transport first. -/
theorem sequencerConfig_selection (t : Templates) (f : SiacFields)
    (h1 : t.iscSequencerConfigReq.length = sizeofIscSequencerConfigReq)
    (h2 : t.iscSequencerConfigReqWithoutHours.length = sizeofIscSequencerConfigReqWithoutHours) :
    (f.hours = 0 →
      sequencerConfigMsg (patchTemplates t f) = ((patchTemplates t f).iscSequencerConfigReqWithoutHours, 42) ∧
      (patchTemplates t f).iscSequencerConfigReqWithoutHours.length = 42) ∧
    (f.hours ≠ 0 →
      sequencerConfigMsg (patchTemplates t f) = ((patchTemplates t f).iscSequencerConfigReq, 50) ∧
      (patchTemplates t f).iscSequencerConfigReq.length = 50) ∧
    (∀ (m : IscMsgs) (tr : Transport) (st : Dev) (siac_data : List Nat),
      st.tpl = t → extractSiacFields siac_data = .ok f → st.WF m →
      ∃ ret st' rest, S1V3G340_Play_Specific_Audio m tr st siac_data = .ok (ret, st') ∧
        st'.tpl = patchTemplates t f ∧
        st'.trace = st.trace ++
          .load (sequencerConfigMsg (patchTemplates t f)).1
              (sequencerConfigMsg (patchTemplates t f)).2 ::
            .transceive (frame (sequencerConfigMsg (patchTemplates t f)).1
              (sequencerConfigMsg (patchTemplates t f)).2) (tr.rc st.calls) :: rest) := by
  have hl := patchTemplates_length t f
  refine ⟨fun hh => ?_, fun hh => ?_, ?_⟩
  · rw [sequencerConfigMsg_patch, if_pos hh, hl.2, h2]
    exact ⟨rfl, rfl⟩
  · rw [sequencerConfigMsg_patch, if_neg hh, hl.1, h1]
    exact ⟨rfl, rfl⟩
  · intro m tr st siac_data ht hf hwf
    subst ht
    by_cases hrc : tr.rc st.calls = 0
    · obtain ⟨st', r, tail, hp, htpl, htr, -⟩ := play_accepted hf hwf hrc
      refine ⟨_, st',
        [.waitExit r,
         .load (st.aucIscSequencerStartReq.set 6 0) m.iIscSequencerStartReqLen,
         .transceive (frame (st.aucIscSequencerStartReq.set 6 0) m.iIscSequencerStartReqLen)
           (tr.rc (st.calls + 1))] ++ tail, hp, htpl, ?_⟩
      rw [htr, hrc]
      simp [configLoaded]
    · obtain ⟨st', hp, htpl, htr⟩ := play_rejected hf hwf hrc
      refine ⟨_, st', [], hp, htpl, ?_⟩
      rw [htr]
      simp [configLoaded]

/-- Witness for C1 (amended): the initial templates, fields (control 2, hours 0,
minutes 30). -/
theorem sequencerConfig_selection_witness :
    (Templates.init.iscSequencerConfigReq.length = sizeofIscSequencerConfigReq ∧
      Templates.init.iscSequencerConfigReqWithoutHours.length = sizeofIscSequencerConfigReqWithoutHours) ∧
    sequencerConfigMsg (patchTemplates Templates.init ⟨2, 0, 30⟩) =
      ((patchTemplates Templates.init ⟨2, 0, 30⟩).iscSequencerConfigReqWithoutHours, 42) ∧
    (patchTemplates Templates.init ⟨2, 0, 30⟩).iscSequencerConfigReqWithoutHours.length = 42 :=
  ⟨⟨rfl, rfl⟩, (sequencerConfig_selection Templates.init ⟨2, 0, 30⟩ rfl rfl).1 rfl⟩

/-! ## C2: the control code -/

/-- C2: for every control number (in particular every byte 0..255) and all hours and
minutes, after `createIscSequencerConfigReq` byte offset 24 of the selected template
(WithHours when `hours != 0`, WithoutHours when `hours == 0`) is
`(controlNumber + 141) mod 256`; control number 255 wraps to 0x8C and control number 1
gives 0x8E. -/
theorem control_code_at_offset_24 (t : Templates) (f : SiacFields)
    (h1 : t.iscSequencerConfigReq.length = sizeofIscSequencerConfigReq)
    (h2 : t.iscSequencerConfigReqWithoutHours.length = sizeofIscSequencerConfigReqWithoutHours) :
    (f.hours ≠ 0 →
      (patchTemplates t f).iscSequencerConfigReq[24]? = some ((f.controlNumber + 141) % 256)) ∧
    (f.hours = 0 →
      (patchTemplates t f).iscSequencerConfigReqWithoutHours[24]? = some ((f.controlNumber + 141) % 256)) ∧
    (sequencerConfigMsg (patchTemplates t f)).1[24]? = some ((f.controlNumber + 141) % 256) ∧
    (f.controlNumber = 255 → (sequencerConfigMsg (patchTemplates t f)).1[24]? = some 0x8C) ∧
    (f.controlNumber = 1 → (sequencerConfigMsg (patchTemplates t f)).1[24]? = some 0x8E) ∧
    (∀ siac_data, extractSiacFields siac_data = .ok f →
      ∃ t', createIscSequencerConfigReq t siac_data = .ok t' ∧
        (sequencerConfigMsg t').1[24]? = some ((f.controlNumber + 141) % 256)) := by
  have hw : f.hours ≠ 0 →
      (patchTemplates t f).iscSequencerConfigReq[24]? = some ((f.controlNumber + 141) % 256) :=
    fun hh => (patch_withHours_bytes h1 hh).1
  have hwo : f.hours = 0 →
      (patchTemplates t f).iscSequencerConfigReqWithoutHours[24]? = some ((f.controlNumber + 141) % 256) :=
    fun hh => (patch_withoutHours_bytes h2 hh).1
  have hsel : (sequencerConfigMsg (patchTemplates t f)).1[24]? =
      some ((f.controlNumber + 141) % 256) := by
    rw [sequencerConfigMsg_patch]
    by_cases hh : f.hours = 0
    · simpa [hh] using hwo hh
    · simpa [hh] using hw hh
  refine ⟨hw, hwo, hsel, fun hc => ?_, fun hc => ?_, fun siac_data hf => ?_⟩
  · rw [hsel, hc]
  · rw [hsel, hc]
  · exact ⟨_, createIscSequencerConfigReq_eq hf, hsel⟩

/-- Witness for C2: the initial templates, fields (control 255, hours 3, minutes 7). -/
theorem control_code_at_offset_24_witness :
    (Templates.init.iscSequencerConfigReq.length = sizeofIscSequencerConfigReq ∧
      Templates.init.iscSequencerConfigReqWithoutHours.length = sizeofIscSequencerConfigReqWithoutHours) ∧
    (sequencerConfigMsg (patchTemplates Templates.init ⟨255, 3, 7⟩)).1[24]? = some 0x8C :=
  ⟨⟨rfl, rfl⟩, (control_code_at_offset_24 Templates.init ⟨255, 3, 7⟩ rfl rfl).2.2.2.1 rfl⟩

/-! ## C3: the hours and minutes codes -/

/-- C3: for all hours in 0..255 and all minutes (in particular 0..255): if `hours != 0`, after
`createIscSequencerConfigReq` the WithHours template has byte 40 = `(hours - 1) mod 256`
(which is `hours - 1`) and byte 48 = `(minutes + 23) mod 256`; if `hours == 0`, the
WithoutHours template has byte 40 = `(minutes + 23) mod 256`.  Scenario (1, 1, 15) gives
0x8E / 0x00 / 0x26 at offsets 24 / 40 / 48 of WithHours, scenario (2, 0, 30) gives 0x8F at
24 and 0x35 at 40 of WithoutHours. -/
theorem hours_minutes_codes (t : Templates) (f : SiacFields)
    (h1 : t.iscSequencerConfigReq.length = sizeofIscSequencerConfigReq)
    (h2 : t.iscSequencerConfigReqWithoutHours.length = sizeofIscSequencerConfigReqWithoutHours)
    (hh : f.hours < 256) :
    (f.hours ≠ 0 →
      (∃ b : Nat, (patchTemplates t f).iscSequencerConfigReq[40]? = some b ∧
        (b : Int) = ((f.hours : Int) - 1) % 256 ∧ b = f.hours - 1) ∧
      (patchTemplates t f).iscSequencerConfigReq[48]? = some ((f.minutes + 23) % 256) ∧
      (patchTemplates t f).msgHasHours = true) ∧
    (f.hours = 0 →
      (patchTemplates t f).iscSequencerConfigReqWithoutHours[40]? = some ((f.minutes + 23) % 256) ∧
      (patchTemplates t f).msgHasHours = false) ∧
    (∀ siac_data, extractSiacFields siac_data = .ok f →
      createIscSequencerConfigReq t siac_data = .ok (patchTemplates t f)) ∧
    ((patchTemplates Templates.init ⟨1, 1, 15⟩).msgHasHours = true ∧
      (patchTemplates Templates.init ⟨1, 1, 15⟩).iscSequencerConfigReq[24]? = some 0x8E ∧
      (patchTemplates Templates.init ⟨1, 1, 15⟩).iscSequencerConfigReq[40]? = some 0x00 ∧
      (patchTemplates Templates.init ⟨1, 1, 15⟩).iscSequencerConfigReq[48]? = some 0x26) ∧
    ((patchTemplates Templates.init ⟨2, 0, 30⟩).msgHasHours = false ∧
      (patchTemplates Templates.init ⟨2, 0, 30⟩).iscSequencerConfigReqWithoutHours[24]? = some 0x8F ∧
      (patchTemplates Templates.init ⟨2, 0, 30⟩).iscSequencerConfigReqWithoutHours[40]? = some 0x35) := by
  refine ⟨fun h0 => ⟨⟨hoursMsgCode f.hours, (patch_withHours_bytes h1 h0).2.1,
      hoursMsgCode_int f.hours, hoursMsgCode_of_pos h0 hh⟩, (patch_withHours_bytes h1 h0).2.2.1,
      ?_⟩, fun h0 => ⟨(patch_withoutHours_bytes h2 h0).2.1, ?_⟩,
    fun siac_data hf => createIscSequencerConfigReq_eq hf, by decide, by decide⟩
  · simp [patchTemplates_msgHasHours, h0]
  · simp [patchTemplates_msgHasHours, h0]

/-- Witness for C3: the initial templates, fields (control 1, hours 1, minutes 15). -/
theorem hours_minutes_codes_witness :
    (Templates.init.iscSequencerConfigReq.length = sizeofIscSequencerConfigReq ∧
      Templates.init.iscSequencerConfigReqWithoutHours.length = sizeofIscSequencerConfigReqWithoutHours ∧
      (1 : Nat) < 256) ∧
    (patchTemplates Templates.init ⟨1, 1, 15⟩).iscSequencerConfigReq[48]? = some ((15 + 23) % 256) :=
  ⟨⟨rfl, rfl, by decide⟩,
    ((hours_minutes_codes Templates.init ⟨1, 1, 15⟩ rfl rfl (by decide)).1 (by decide)).2.1⟩

/-! ## C4: no interference between builds -/

/-- C4: whatever sequence of earlier `createIscSequencerConfigReq` builds (with arbitrary
fields) has patched the global templates since program start, the SequencerConfig message
built for fields `f` — the selected template after patching together with its length, and
hence the 70-byte frame that `updateTxBuffer` makes of it — is byte-identical to the one
built for `f` from the initial state; in particular building for `f` again after any
builds in between gives the same message. -/
theorem builder_no_interference (history : List SiacFields) (f : SiacFields) :
    sequencerConfigMsg (patchTemplates (history.foldl patchTemplates Templates.init) f) =
      sequencerConfigMsg (patchTemplates Templates.init f) ∧
    (∀ tx : List Nat,
      updateTxBuffer tx
          (sequencerConfigMsg (patchTemplates (history.foldl patchTemplates Templates.init) f)).1
          (sequencerConfigMsg (patchTemplates (history.foldl patchTemplates Templates.init) f)).2 =
        updateTxBuffer tx (sequencerConfigMsg (patchTemplates Templates.init f)).1
          (sequencerConfigMsg (patchTemplates Templates.init f)).2) ∧
    (∀ tx : List Nat, tx.length = sizeofTxBuffer →
      updateTxBuffer tx
          (sequencerConfigMsg (patchTemplates (history.foldl patchTemplates Templates.init) f)).1
          (sequencerConfigMsg (patchTemplates (history.foldl patchTemplates Templates.init) f)).2 =
        .ok (frame (sequencerConfigMsg (patchTemplates Templates.init f)).1
          (sequencerConfigMsg (patchTemplates Templates.init f)).2)) ∧
    (∀ between : List SiacFields,
      sequencerConfigMsg (patchTemplates (between.foldl patchTemplates
          (patchTemplates (history.foldl patchTemplates Templates.init) f)) f) =
        sequencerConfigMsg (patchTemplates (history.foldl patchTemplates Templates.init) f)) := by
  have hinv := Templates.inv_foldl history _ Templates.inv_init
  have e := sequencerConfigMsg_patch_congr hinv Templates.inv_init f
  refine ⟨e, fun tx => by rw [e], fun tx htx => ?_, fun between =>
    sequencerConfigMsg_patch_congr
      (Templates.inv_foldl between _ (Templates.inv_patch hinv f)) hinv f⟩
  rw [e]
  have hfit := sequencerConfigMsg_fits (t := patchTemplates Templates.init f)
    (by rw [(patchTemplates_length _ f).1]; rfl) (by rw [(patchTemplates_length _ f).2]; rfl)
  exact updateTxBuffer_eq htx hfit.1 hfit.2

/-! ## C5: extraction after a marker -/

/-- C5 at failing inputs.  The slice `07 01 01 07 00 00 00` has the marker at index 0
followed by (control 1, hours 1, minutes 7), yet the extractor yields (0, 0, 0): the
minutes byte is taken for a second marker and the last marker wins.  The slice
`00 07 01 01 0F 00 00` has its only marker at index 1 followed by (1, 1, 15), yet the
extractor yields (0, 0, 0): the scan stops at the zero byte before the marker.  With
control number 7 (`07 07 01 0F 00 00 00`) it yields (1, 15, 0). -/
theorem extract_misses_fields_after_marker :
    ([7, 1, 1, 7, 0, 0, 0][0]? = some 7 ∧ 0 + 3 ≤ 6 ∧
      extractSiacFields [7, 1, 1, 7, 0, 0, 0] = .ok ⟨0, 0, 0⟩ ∧
      extractSiacFields [7, 1, 1, 7, 0, 0, 0] ≠ .ok ⟨1, 1, 7⟩) ∧
    ([0, 7, 1, 1, 15, 0, 0][1]? = some 7 ∧ 1 + 3 ≤ 6 ∧
      extractSiacFields [0, 7, 1, 1, 15, 0, 0] = .ok ⟨0, 0, 0⟩ ∧
      extractSiacFields [0, 7, 1, 1, 15, 0, 0] ≠ .ok ⟨1, 1, 15⟩) ∧
    ([7, 7, 1, 15, 0, 0, 0][0]? = some 7 ∧ 0 + 3 ≤ 6 ∧
      extractSiacFields [7, 7, 1, 15, 0, 0, 0] = .ok ⟨1, 15, 0⟩ ∧
      extractSiacFields [7, 7, 1, 15, 0, 0, 0] ≠ .ok ⟨7, 1, 15⟩) := by
  decide

/-! ## C7: reads stay inside the slice -/

/-- C7 at failing inputs.  For the 7-byte slice `07 01 01 0F 01 02 03`, which has no zero
byte, `strlen` reads index 7; for `01 01 01 01 07 01 00` the scan bound is 6 but the
marker at index 4 makes the extractor read `siac_data[4+3]`, again index 7. -/
theorem extract_reads_past_slice :
    ([7, 1, 1, 15, 1, 2, 3].length = 7 ∧
      strlen [7, 1, 1, 15, 1, 2, 3] = .error (.outOfBounds 7) ∧
      extractSiacFields [7, 1, 1, 15, 1, 2, 3] = .error (.outOfBounds 7)) ∧
    ([1, 1, 1, 1, 7, 1, 0].length = 7 ∧
      strlen [1, 1, 1, 1, 7, 1, 0] = .ok 6 ∧
      extractSiacFields [1, 1, 1, 1, 7, 1, 0] = .error (.outOfBounds 7)) := by
  decide

/-! ## Lemmas: transport-visible behaviour of playback and of the event handler -/

/-- The two frames of the playback sequence for fields `f` in state `st`. -/
theorem play_spec {m : IscMsgs} (tr : Transport) {st : Dev} {siac_data : List Nat}
    {f : SiacFields} (hf : extractSiacFields siac_data = .ok f) (hwf : st.WF m) :
    ∃ st', S1V3G340_Play_Specific_Audio m tr st siac_data =
        .ok (abortingRet tr.rc st.calls 2, st') ∧
      st'.tpl = patchTemplates st.tpl f ∧
      transceives st'.trace = transceives st.trace ++
        abortingSeq tr.rc st.calls (playFrames m st f) := by
  by_cases hrc : tr.rc st.calls = 0
  · obtain ⟨st', r, tail, hp, htpl, htr, htail⟩ := play_accepted hf hwf hrc
    refine ⟨st', ?_, htpl, ?_⟩
    · rw [hp]
      by_cases h2 : tr.rc (st.calls + 1) = 0 <;> simp [abortingRet, hrc, h2]
    · rw [htr]
      by_cases h2 : tr.rc (st.calls + 1) = 0 <;>
        simp [transceives_append, transceives, htail, abortingSeq, playFrames, configLoaded,
          hrc, h2]
  · obtain ⟨st', hp, htpl, htr⟩ := play_rejected hf hwf hrc
    refine ⟨st', ?_, htpl, ?_⟩
    · rw [hp]
      simp [abortingRet, hrc]
    · rw [htr]
      simp [transceives_append, transceives, abortingSeq, playFrames, configLoaded, hrc]

/-- What `spi_write_test_msg` puts on the transport: the initialization frames up to the
first rejected one, then — whatever the initialization returned — the playback frames up to
the first rejected one. -/
theorem spi_write_test_msg_spec {m : IscMsgs} (tr : Transport) {st : Dev}
    {siac_data : List Nat} {f : SiacFields} (hf : extractSiacFields siac_data = .ok f)
    (hm : m.WF) (hwf : st.WF m) :
    ∃ st', spi_write_test_msg m tr st siac_data = .ok (0, st') ∧
      st'.tpl = patchTemplates st.tpl f ∧
      transceives st'.trace = transceives st.trace ++
        abortingSeq tr.rc st.calls (initFrames m) ++
        abortingSeq tr.rc (st.calls + (abortingSeq tr.rc st.calls (initFrames m)).length)
          (playFrames m st f) := by
  obtain ⟨st1, hinit, htpl1, hsr1, htx1, hcalls1, htr1⟩ := init_spec tr hm hwf.1
  have hwf1 : st1.WF m := by
    obtain ⟨-, a, b, c, d, e⟩ := hwf
    exact ⟨htx1, by rw [htpl1]; exact a, by rw [htpl1]; exact b, by rw [hsr1]; exact c,
      by rw [hsr1]; exact d, e⟩
  obtain ⟨st2, hplay, htpl2, htr2⟩ := play_spec tr hf hwf1
  refine ⟨st2, ?_, by rw [htpl2, htpl1], ?_⟩
  · simp [spi_write_test_msg, hinit, hplay, bind, Except.bind, pure, Except.pure]
  · rw [htr2, htr1, hcalls1]
    simp [playFrames, htpl1, hsr1]

/-! ## C6: slices without a marker -/

theorem strlenFrom_of_mem : ∀ (l : List Nat) (n : Nat), 0 ∈ l →
    ∃ k, strlenFrom l n = .ok (n + k) ∧ k < l.length := by
  intro l
  induction l with
  | nil => intro n h; simp at h
  | cons b rest ih =>
    intro n h
    by_cases hb : b = 0
    · exact ⟨0, by simp [strlenFrom, hb], by simp⟩
    · have hrest : 0 ∈ rest := by
        rcases List.mem_cons.mp h with h' | h'
        · exact absurd h'.symm hb
        · exact h'
      obtain ⟨k, hk, hlt⟩ := ih (n + 1) hrest
      refine ⟨k + 1, ?_, by simp [hlt]⟩
      simp only [strlenFrom, hb, if_false, hk]
      congr 1
      omega

theorem scanLoop_no_marker (s : List Nat) (h7 : 7 ∉ s) :
    ∀ (k i : Nat) (f : SiacFields), i + k ≤ s.length → scanLoop s k i f = .ok f := by
  intro k
  induction k with
  | zero => intro i f _; rfl
  | succ k ih =>
    intro i f h
    have hi : i < s.length := by omega
    have hne : s[i] ≠ 7 := fun e => h7 (e ▸ List.getElem_mem hi)
    simp only [scanLoop, readByte_of_lt hi, bind, Except.bind, hne, if_false]
    exact ih (i + 1) f (by omega)

theorem extract_no_marker {s : List Nat} (h7 : 7 ∉ s) (h0 : 0 ∈ s) :
    extractSiacFields s = .ok ⟨0, 0, 0⟩ := by
  obtain ⟨k, hk, hlt⟩ := strlenFrom_of_mem s 0 h0
  simp only [extractSiacFields, strlen, hk, bind, Except.bind]
  exact scanLoop_no_marker s h7 _ 0 _ (by omega)

/-- C6, as stated, fails: the 7-byte slice `01 02 03 00 00 00 00` contains no byte equal
to 7, yet extraction produces the field triple (0, 0, 0), the WithoutHours template is
patched (offset 24 changes from 0x8E to 0x8D, offset 40 from 0x26 to 0x17), and
`spi_write_test_msg` puts the resulting SequencerConfig frame on the transport as its
fifth transceive. -/
theorem marker_absent_is_not_rejected :
    7 ∉ [1, 2, 3, 0, 0, 0, 0] ∧
    extractSiacFields [1, 2, 3, 0, 0, 0, 0] = .ok ⟨0, 0, 0⟩ ∧
    (createIscSequencerConfigReq Templates.init [1, 2, 3, 0, 0, 0, 0]).map
        (fun t => (t.iscSequencerConfigReqWithoutHours[24]?, t.iscSequencerConfigReqWithoutHours[40]?)) = .ok (some 0x8D, some 0x17) ∧
    (Templates.init.iscSequencerConfigReqWithoutHours[24]?, Templates.init.iscSequencerConfigReqWithoutHours[40]?) =
      (some 0x8E, some 0x26) ∧
    (spi_write_test_msg sampleMsgs okTransport (Dev.init sampleStartReq)
        [1, 2, 3, 0, 0, 0, 0]).map (fun p => (transceives p.2.trace)[4]?) =
      .ok (some (frame (patchTemplates Templates.init ⟨0, 0, 0⟩).iscSequencerConfigReqWithoutHours 42, 0)) := by
  refine ⟨by decide, by decide, by decide, by decide, ?_⟩
  rfl

theorem frame_getElem?_of_lt {msgBuf : List Nat} {len i : Nat} (hi : i < len)
    (hlen : len ≤ msgBuf.length) : (frame msgBuf len)[i]? = msgBuf[i]? := by
  have hl : i < (msgBuf.take len).length := by
    rw [List.length_take]
    omega
  simp only [frame]
  rw [List.getElem?_append_left hl, List.getElem?_take, if_pos hi]

/-- C6, amended: for every slice that contains a zero byte and no byte equal to 7,
extraction does not fail but yields the fields (0, 0, 0); `createIscSequencerConfigReq`
then patches the WithoutHours template with control code 0x8D at offset 24 and minutes
code 0x17 at offset 40, and `spi_write_test_msg` puts that SequencerConfig message on the
transport: the templates it leaves are exactly the ones patched for (0, 0, 0), and the
transceive that follows the initialization transceives carries the patched WithoutHours
template (0x8D at offset 24, 0x17 at offset 40 of the frame), followed by SequencerStart
when that transceive was accepted. -/
theorem marker_absent_defaults_to_zero (s : List Nat) (h7 : 7 ∉ s) (h0 : 0 ∈ s) :
    extractSiacFields s = .ok ⟨0, 0, 0⟩ ∧
    (∀ t : Templates, t.iscSequencerConfigReqWithoutHours.length = sizeofIscSequencerConfigReqWithoutHours →
      ∃ t', createIscSequencerConfigReq t s = .ok t' ∧ t'.msgHasHours = false ∧
        t'.iscSequencerConfigReqWithoutHours[24]? = some 0x8D ∧ t'.iscSequencerConfigReqWithoutHours[40]? = some 0x17 ∧
        t'.iscSequencerConfigReq = t.iscSequencerConfigReq) ∧
    (∀ (m : IscMsgs) (tr : Transport) (st : Dev), m.WF → st.WF m →
      ∃ st', spi_write_test_msg m tr st s = .ok (0, st') ∧
        st'.tpl = patchTemplates st.tpl ⟨0, 0, 0⟩ ∧
        st'.tpl.msgHasHours = false ∧
        st'.tpl.iscSequencerConfigReq = st.tpl.iscSequencerConfigReq ∧
        st'.tpl.iscSequencerConfigReqWithoutHours =
          (st.tpl.iscSequencerConfigReqWithoutHours.set 24 0x8D).set 40 0x17 ∧
        st'.tpl.iscSequencerConfigReqWithoutHours[24]? = some 0x8D ∧
        st'.tpl.iscSequencerConfigReqWithoutHours[40]? = some 0x17 ∧
        (frame st'.tpl.iscSequencerConfigReqWithoutHours 42).take 42 =
          st'.tpl.iscSequencerConfigReqWithoutHours ∧
        (frame st'.tpl.iscSequencerConfigReqWithoutHours 42)[24]? = some 0x8D ∧
        (frame st'.tpl.iscSequencerConfigReqWithoutHours 42)[40]? = some 0x17 ∧
        transceives st'.trace =
          transceives st.trace ++ abortingSeq tr.rc st.calls (initFrames m) ++
            (frame st'.tpl.iscSequencerConfigReqWithoutHours 42,
              tr.rc (st.calls + (abortingSeq tr.rc st.calls (initFrames m)).length)) ::
            (if tr.rc (st.calls + (abortingSeq tr.rc st.calls (initFrames m)).length) = 0 then
              [(frame (st.aucIscSequencerStartReq.set 6 0) m.iIscSequencerStartReqLen,
                tr.rc (st.calls + (abortingSeq tr.rc st.calls (initFrames m)).length + 1))]
            else [])) := by
  have hf := extract_no_marker h7 h0
  refine ⟨hf, fun t ht => ?_, fun m tr st hm hwf => ?_⟩
  · have hb := patch_withoutHours_bytes (t := t) (f := ⟨0, 0, 0⟩) ht rfl
    exact ⟨_, createIscSequencerConfigReq_eq hf, by simp [patchTemplates_msgHasHours],
      hb.1, hb.2.1, hb.2.2⟩
  · obtain ⟨st', hrun, htpl, htr⟩ := spi_write_test_msg_spec tr hf hm hwf
    have hwo := hwf.2.2.1
    have hb := patch_withoutHours_bytes (t := st.tpl) (f := ⟨0, 0, 0⟩) hwo rfl
    have hl : (patchTemplates st.tpl ⟨0, 0, 0⟩).iscSequencerConfigReqWithoutHours.length = 42 := by
      rw [(patchTemplates_length st.tpl ⟨0, 0, 0⟩).2, hwo]
      rfl
    have hset : (patchTemplates st.tpl ⟨0, 0, 0⟩).iscSequencerConfigReqWithoutHours =
        (st.tpl.iscSequencerConfigReqWithoutHours.set 24 0x8D).set 40 0x17 := rfl
    have htake : (frame (patchTemplates st.tpl ⟨0, 0, 0⟩).iscSequencerConfigReqWithoutHours
        42).take 42 = (patchTemplates st.tpl ⟨0, 0, 0⟩).iscSequencerConfigReqWithoutHours := by
      simp only [frame]
      rw [List.take_of_length_le (Nat.le_of_eq hl), List.take_left' hl]
    refine ⟨st', hrun, htpl, ?_, ?_, ?_, ?_, ?_, ?_, ?_, ?_, ?_⟩
    · rw [htpl]; simp [patchTemplates_msgHasHours]
    · rw [htpl]; exact hb.2.2
    · rw [htpl]; exact hset
    · rw [htpl]; exact hb.1
    · rw [htpl]; exact hb.2.1
    · rw [htpl]; exact htake
    · rw [htpl, frame_getElem?_of_lt (by decide) (Nat.le_of_eq hl.symm)]; exact hb.1
    · rw [htpl, frame_getElem?_of_lt (by decide) (Nat.le_of_eq hl.symm)]; exact hb.2.1
    · rw [htr, htpl]
      by_cases h1 : tr.rc (st.calls + (abortingSeq tr.rc st.calls (initFrames m)).length) = 0 <;>
        simp [playFrames, abortingSeq, sequencerConfigMsg_patch,
          sizeofIscSequencerConfigReqWithoutHours_eq, h1]

/-- Witness for C6 (amended): the slice `01 02 03 00 00 00 00` on the sample requests and
an accepting transport from the initial state: the fifth transceive carries the
WithoutHours template patched with 0x8D and 0x17. -/
theorem marker_absent_defaults_to_zero_witness :
    (7 ∉ [1, 2, 3, 0, 0, 0, 0] ∧ 0 ∈ [1, 2, 3, 0, 0, 0, 0]) ∧
    extractSiacFields [1, 2, 3, 0, 0, 0, 0] = .ok ⟨0, 0, 0⟩ ∧
    ∃ st', spi_write_test_msg sampleMsgs okTransport (Dev.init sampleStartReq)
        [1, 2, 3, 0, 0, 0, 0] = .ok (0, st') ∧
      st'.tpl.iscSequencerConfigReqWithoutHours =
        (SIVoice.iscSequencerConfigReqWithoutHours.set 24 0x8D).set 40 0x17 ∧
      (transceives st'.trace)[4]? =
        some (frame ((SIVoice.iscSequencerConfigReqWithoutHours.set 24 0x8D).set 40 0x17) 42,
          0) := by
  have h := marker_absent_defaults_to_zero [1, 2, 3, 0, 0, 0, 0] (by decide) (by decide)
  refine ⟨⟨by decide, by decide⟩, h.1, ?_⟩
  obtain ⟨st', hrun, -, -, -, hset, -, -, -, -, -, htr⟩ :=
    h.2.2 sampleMsgs okTransport (Dev.init sampleStartReq) (by decide) (by decide)
  refine ⟨st', hrun, hset, ?_⟩
  rw [htr, hset]
  rfl

/-! ## C8: the advertisement filter -/

theorem strstr_iff (haystack needle : List Nat) :
    strstr haystack needle = true ↔ needle <:+: haystack := by
  induction haystack with
  | nil => simp [strstr, List.infix_nil]
  | cons c rest ih =>
    rw [strstr, Bool.or_eq_true, ih, List.infix_cons_iff, List.isPrefixOf_iff_prefix]

theorem getD_padded (data : List Nat) (n i : Nat) :
    (data ++ List.replicate n 0).getD i 0 = data.getD i 0 := by
  simp only [List.getD_eq_getElem?_getD, List.getElem?_append, List.getElem?_replicate]
  by_cases h : i < data.length
  · simp [h]
  · simp only [h, if_false, List.getElem?_eq_none (Nat.le_of_not_lt h)]
    split <;> rfl

/-- C8: for every advertisement record (`adv_type`, payload of at most 100 bytes, parsed
name) and every handler, `scan_recv` calls the handler — exactly once, on the 7 bytes
`payload[7..13]` with bytes past the end of the payload read as 0 — if `adv_type == 2`
and (`payload[0..2] == 02 01 04` or the name contains "SI Beacon" or "SI") and
`payload[6] == 0xFF`; in every other case it returns without calling the handler and
without error.  With the recording handler, the log gains exactly that one slice if and
only if the condition holds. -/
theorem scan_recv_forwards_iff {σ : Type} (handler : List Nat → σ → Except Fault σ)
    (adv_type : Nat) (payload name : List Nat) (s : σ) (hlen : payload.length ≤ 100) :
    ((adv_type = 2 ∧
        ((payload.getD 0 0 = 0x02 ∧ payload.getD 1 0 = 0x01 ∧ payload.getD 2 0 = 0x04) ∨
          sportident_dev_id0 <:+: name ∨ sportident_dev_id1 <:+: name) ∧
        payload.getD 6 0 = 0xFF) →
      scan_recv handler adv_type payload name s =
        handler [payload.getD 7 0, payload.getD 8 0, payload.getD 9 0, payload.getD 10 0,
          payload.getD 11 0, payload.getD 12 0, payload.getD 13 0] s) ∧
    (¬ (adv_type = 2 ∧
        ((payload.getD 0 0 = 0x02 ∧ payload.getD 1 0 = 0x01 ∧ payload.getD 2 0 = 0x04) ∨
          sportident_dev_id0 <:+: name ∨ sportident_dev_id1 <:+: name) ∧
        payload.getD 6 0 = 0xFF) →
      scan_recv handler adv_type payload name s = .ok s) ∧
    (scan_recv recordCall adv_type payload name [] =
        .ok [[payload.getD 7 0, payload.getD 8 0, payload.getD 9 0, payload.getD 10 0,
          payload.getD 11 0, payload.getD 12 0, payload.getD 13 0]] ↔
      (adv_type = 2 ∧
        ((payload.getD 0 0 = 0x02 ∧ payload.getD 1 0 = 0x01 ∧ payload.getD 2 0 = 0x04) ∨
          sportident_dev_id0 <:+: name ∨ sportident_dev_id1 <:+: name) ∧
        payload.getD 6 0 = 0xFF)) ∧
    (scan_recv recordCall adv_type payload name [] = .ok [] ↔
      ¬ (adv_type = 2 ∧
        ((payload.getD 0 0 = 0x02 ∧ payload.getD 1 0 = 0x01 ∧ payload.getD 2 0 = 0x04) ∨
          sportident_dev_id0 <:+: name ∨ sportident_dev_id1 <:+: name) ∧
        payload.getD 6 0 = 0xFF)) := by
  have key : ∀ {τ : Type} (hd : List Nat → τ → Except Fault τ) (x : τ),
      scan_recv hd adv_type payload name x =
        if adv_type = 2 ∧
          ((payload.getD 0 0 = 0x02 ∧ payload.getD 1 0 = 0x01 ∧ payload.getD 2 0 = 0x04) ∨
            sportident_dev_id0 <:+: name ∨ sportident_dev_id1 <:+: name) ∧
          payload.getD 6 0 = 0xFF
        then hd [payload.getD 7 0, payload.getD 8 0, payload.getD 9 0, payload.getD 10 0,
          payload.getD 11 0, payload.getD 12 0, payload.getD 13 0] x
        else .ok x := by
    intro τ hd x
    unfold scan_recv
    simp only [hlen, if_true, getD_padded, strstr_iff]
    by_cases h1 : adv_type = 2
    · by_cases h2 : (payload.getD 0 0 = 0x02 ∧ payload.getD 1 0 = 0x01 ∧
          payload.getD 2 0 = 0x04) ∨
          sportident_dev_id0 <:+: name ∨ sportident_dev_id1 <:+: name
      · by_cases h3 : payload.getD 6 0 = 0xFF
        · rw [if_pos h1, if_pos h2, if_pos h3, if_pos ⟨h1, h2, h3⟩]
        · rw [if_pos h1, if_pos h2, if_neg h3, if_neg (fun h => h3 h.2.2)]
      · rw [if_pos h1, if_neg h2, if_neg (fun h => h2 h.2.1)]
    · rw [if_neg h1, if_neg (fun h => h1 h.1)]
  refine ⟨fun h => ?_, fun h => ?_, ?_, ?_⟩
  · rw [key, if_pos h]
  · rw [key, if_neg h]
  · rw [key]
    constructor
    · intro h
      by_contra hc
      rw [if_neg hc] at h
      simp at h
    · intro h
      rw [if_pos h]
      rfl
  · rw [key]
    constructor
    · intro h hc
      rw [if_pos hc] at h
      simp [recordCall] at h
    · intro h
      rw [if_neg h]

/-- Witness for C8: the beacon's payload is forwarded as the slice `07 01 01 0F 00 00 00`. -/
theorem scan_recv_forwards_iff_witness :
    samplePayload.length ≤ 100 ∧
    scan_recv recordCall 2 samplePayload [] [] = .ok [[7, 1, 1, 15, 0, 0, 0]] :=
  ⟨by decide,
    (scan_recv_forwards_iff recordCall 2 samplePayload [] [] (by decide)).1 (by decide)⟩

/-! ## C9: order and abort of the initialization sequence -/

/-- C9: for every transport behaviour, `S1V3G340_Initialize_Audio_Config` returns, and its
transceives carry the Reset, Test, Version, AudioConfig frames in exactly that order; if
the k-th of them returns a non-zero error, the function returns that error and issues no
transceive for a later step; if all four return 0, exactly four transceives are issued and
the function returns 0.  (Transport call numbers start at `st.calls`.) -/
theorem initialize_order_and_abort (m : IscMsgs) (tr : Transport) (st : Dev) (hm : m.WF)
    (htx : st.tx_buffer.length = sizeofTxBuffer) :
    ∃ ret st' issued,
      S1V3G340_Initialize_Audio_Config m tr st = .ok (ret, st') ∧
      transceives st'.trace = transceives st.trace ++ issued ∧
      (tr.rc st.calls ≠ 0 →
        ret = tr.rc st.calls ∧
        issued = [(frame m.aucIscResetReq m.iIscResetReqLen, tr.rc st.calls)]) ∧
      (tr.rc st.calls = 0 → tr.rc (st.calls + 1) ≠ 0 →
        ret = tr.rc (st.calls + 1) ∧
        issued = [(frame m.aucIscResetReq m.iIscResetReqLen, 0),
          (frame m.aucIscTestReq m.iIscTestReqLen, tr.rc (st.calls + 1))]) ∧
      (tr.rc st.calls = 0 → tr.rc (st.calls + 1) = 0 → tr.rc (st.calls + 2) ≠ 0 →
        ret = tr.rc (st.calls + 2) ∧
        issued = [(frame m.aucIscResetReq m.iIscResetReqLen, 0),
          (frame m.aucIscTestReq m.iIscTestReqLen, 0),
          (frame m.aucIscVersionReq m.iIscVersionReqLen, tr.rc (st.calls + 2))]) ∧
      (tr.rc st.calls = 0 → tr.rc (st.calls + 1) = 0 → tr.rc (st.calls + 2) = 0 →
          tr.rc (st.calls + 3) ≠ 0 →
        ret = tr.rc (st.calls + 3) ∧
        issued = [(frame m.aucIscResetReq m.iIscResetReqLen, 0),
          (frame m.aucIscTestReq m.iIscTestReqLen, 0),
          (frame m.aucIscVersionReq m.iIscVersionReqLen, 0),
          (frame m.aucIscAudioConfigReq m.iIscAudioConfigReqLen, tr.rc (st.calls + 3))]) ∧
      (tr.rc st.calls = 0 → tr.rc (st.calls + 1) = 0 → tr.rc (st.calls + 2) = 0 →
          tr.rc (st.calls + 3) = 0 →
        ret = 0 ∧
        issued = [(frame m.aucIscResetReq m.iIscResetReqLen, 0),
          (frame m.aucIscTestReq m.iIscTestReqLen, 0),
          (frame m.aucIscVersionReq m.iIscVersionReqLen, 0),
          (frame m.aucIscAudioConfigReq m.iIscAudioConfigReqLen, 0)]) := by
  obtain ⟨st', hrun, -, -, -, -, htr⟩ := init_spec tr hm htx
  refine ⟨_, st', _, hrun, htr, ?_, ?_, ?_, ?_, ?_⟩
  · intro h0
    simp [abortingRet, abortingSeq, initFrames, h0]
  · intro h0 h1
    simp [abortingRet, abortingSeq, initFrames, h0, h1]
  · intro h0 h1 h2
    simp [abortingRet, abortingSeq, initFrames, h0, h1, h2]
  · intro h0 h1 h2 h3
    simp [abortingRet, abortingSeq, initFrames, h0, h1, h2, h3]
  · intro h0 h1 h2 h3
    simp [abortingRet, abortingSeq, initFrames, h0, h1, h2, h3]

/-- Witness for C9: the sample requests on an accepting transport from the initial state
give return value 0 and exactly the four frames. -/
theorem initialize_order_and_abort_witness :
    (sampleMsgs.WF ∧ (Dev.init sampleStartReq).tx_buffer.length = sizeofTxBuffer) ∧
    ∃ ret st' issued,
      S1V3G340_Initialize_Audio_Config sampleMsgs okTransport (Dev.init sampleStartReq) =
        .ok (ret, st') ∧
      transceives st'.trace = transceives (Dev.init sampleStartReq).trace ++ issued ∧
      ret = 0 ∧
      issued = [(frame sampleMsgs.aucIscResetReq sampleMsgs.iIscResetReqLen, 0),
        (frame sampleMsgs.aucIscTestReq sampleMsgs.iIscTestReqLen, 0),
        (frame sampleMsgs.aucIscVersionReq sampleMsgs.iIscVersionReqLen, 0),
        (frame sampleMsgs.aucIscAudioConfigReq sampleMsgs.iIscAudioConfigReqLen, 0)] := by
  refine ⟨⟨by decide, by decide⟩, ?_⟩
  obtain ⟨ret, st', issued, hrun, htr, -, -, -, -, hall⟩ :=
    initialize_order_and_abort sampleMsgs okTransport (Dev.init sampleStartReq)
      (by decide) (by decide)
  exact ⟨ret, st', issued, hrun, htr, hall rfl rfl rfl rfl⟩

/-! ## C10: SequencerStart after SequencerConfig -/

/-- C10, as stated, fails: on a transport that accepts every transfer but reports
completion result -5, `S1V3G340_Play_Specific_Audio` sees result -5 for the
SequencerConfig transaction, still transceives the SequencerStart frame, and returns 0. -/
theorem start_sent_after_failed_completion :
    (S1V3G340_Play_Specific_Audio sampleMsgs failingCompletionTransport
        (Dev.init sampleStartReq) [7, 1, 1, 15, 0, 0, 0]).map (fun p => (p.1, p.2.trace)) =
      .ok (0,
        [.load (patchTemplates Templates.init ⟨1, 1, 15⟩).iscSequencerConfigReq 50,
         .transceive (frame (patchTemplates Templates.init ⟨1, 1, 15⟩).iscSequencerConfigReq 50) 0,
         .waitExit (-5),
         .load (sampleStartReq.set 6 0) 8,
         .transceive (frame (sampleStartReq.set 6 0) 8) 0,
         .waitExit (-5)]) := by
  rfl

/-- C10, amended: for every transport behaviour, within one call of
`S1V3G340_Play_Specific_Audio` the SequencerStart request is transceived only if the
SequencerConfig transceive call of that same call returned 0, and then always; if that
call returned a non-zero error, the function returns the error and SequencerStart is never
put on the transport.  The completion result is not examined: with any other completion
results the function returns the same value and issues the same transceives. -/
theorem start_only_after_config_accepted (m : IscMsgs) (tr : Transport) (st : Dev)
    (siac_data : List Nat) (f : SiacFields) (hf : extractSiacFields siac_data = .ok f)
    (hwf : st.WF m) :
    ∃ ret st' issued,
      S1V3G340_Play_Specific_Audio m tr st siac_data = .ok (ret, st') ∧
      transceives st'.trace = transceives st.trace ++ issued ∧
      (tr.rc st.calls ≠ 0 →
        ret = tr.rc st.calls ∧
        issued = [(frame (sequencerConfigMsg (patchTemplates st.tpl f)).1
          (sequencerConfigMsg (patchTemplates st.tpl f)).2, tr.rc st.calls)]) ∧
      (tr.rc st.calls = 0 →
        ret = tr.rc (st.calls + 1) ∧
        issued = [(frame (sequencerConfigMsg (patchTemplates st.tpl f)).1
            (sequencerConfigMsg (patchTemplates st.tpl f)).2, 0),
          (frame (st.aucIscSequencerStartReq.set 6 0) m.iIscSequencerStartReqLen,
            tr.rc (st.calls + 1))]) ∧
      (∀ result : Nat → Int, ∃ st'',
        S1V3G340_Play_Specific_Audio m ⟨tr.rc, result⟩ st siac_data = .ok (ret, st'') ∧
        transceives st''.trace = transceives st.trace ++ issued) := by
  obtain ⟨st', hrun, -, htr⟩ := play_spec tr hf hwf
  refine ⟨_, st', _, hrun, htr, ?_, ?_, fun result => ?_⟩
  · intro h0
    simp [abortingRet, abortingSeq, playFrames, h0]
  · intro h0
    by_cases h1 : tr.rc (st.calls + 1) = 0 <;>
      simp [abortingRet, abortingSeq, playFrames, h0, h1]
  · obtain ⟨st'', hrun2, -, htr2⟩ := play_spec ⟨tr.rc, result⟩ hf hwf
    exact ⟨st'', hrun2, htr2⟩

/-- Witness for C10 (amended): the sample requests, a failing-completion transport, the
initial state and the slice `07 01 01 0F 00 00 00`. -/
theorem start_only_after_config_accepted_witness :
    (extractSiacFields [7, 1, 1, 15, 0, 0, 0] = .ok ⟨1, 1, 15⟩ ∧
      (Dev.init sampleStartReq).WF sampleMsgs) ∧
    ∃ ret st' issued,
      S1V3G340_Play_Specific_Audio sampleMsgs failingCompletionTransport
        (Dev.init sampleStartReq) [7, 1, 1, 15, 0, 0, 0] = .ok (ret, st') ∧
      transceives st'.trace = transceives (Dev.init sampleStartReq).trace ++ issued ∧
      ret = 0 ∧ issued.length = 2 := by
  refine ⟨⟨by decide, by decide⟩, ?_⟩
  obtain ⟨ret, st', issued, hrun, htr, -, hacc, -⟩ :=
    start_only_after_config_accepted sampleMsgs failingCompletionTransport
      (Dev.init sampleStartReq) [7, 1, 1, 15, 0, 0, 0] ⟨1, 1, 15⟩ (by decide) (by decide)
  obtain ⟨hret, hiss⟩ := hacc rfl
  exact ⟨ret, st', issued, hrun, htr, hret, by rw [hiss]; rfl⟩

/-! ## C11: playback after a failed initialization -/

/-- The transceives of a handshake whose `k`-th call is the first to be rejected: the
first `k + 1` frames, the first `k` with return code 0. -/
theorem abortingSeq_first_failure (rc : Nat → Int) :
    ∀ (fs : List (List Nat)) (c k : Nat), k < fs.length →
      (∀ j, j < k → rc (c + j) = 0) → rc (c + k) ≠ 0 →
      abortingSeq rc c fs =
        (fs.take (k + 1)).zip (List.replicate k 0 ++ [rc (c + k)]) := by
  intro fs
  induction fs with
  | nil => intro c k hk; simp at hk
  | cons fr rest ih =>
    intro c k hk hprev hfail
    cases k with
    | zero =>
      have h0 : rc c ≠ 0 := by simpa using hfail
      simp [abortingSeq, h0]
    | succ k =>
      have h0 : rc c = 0 := by simpa using hprev 0 (by omega)
      have hrest := ih (c + 1) k (by simpa using hk)
        (fun j hj => by
          have := hprev (j + 1) (by omega)
          rwa [show c + 1 + j = c + (j + 1) by omega])
        (by rwa [show c + 1 + k = c + (k + 1) by omega])
      simp only [abortingSeq, h0, ne_eq, not_true_eq_false, if_false, hrest]
      rw [show c + 1 + k = c + (k + 1) by omega]
      simp [List.replicate_succ]

/-- C11, as stated, fails: on a transport that rejects the Reset transfer (the first
initialization step) and accepts the rest, `spi_write_test_msg` still transceives the
SequencerConfig frame and then the SequencerStart frame for that event, and returns 0. -/
theorem playback_issued_after_failed_reset :
    (spi_write_test_msg sampleMsgs rejectFirstTransport (Dev.init sampleStartReq)
        [7, 1, 1, 15, 0, 0, 0]).map (fun p => (p.1, transceives p.2.trace)) =
      .ok (0,
        [(frame sampleMsgs.aucIscResetReq sampleMsgs.iIscResetReqLen, -5),
         (frame (patchTemplates Templates.init ⟨1, 1, 15⟩).iscSequencerConfigReq 50, 0),
         (frame (sampleStartReq.set 6 0) 8, 0)]) := by
  rfl

/-- C11, amended: for every transport behaviour in which the `k`-th step of the
initialization sequence is the first to fail, `spi_write_test_msg` does not reject the
playback: after the `k + 1` initialization transceives it issues the SequencerConfig
transceive for that event, followed by the SequencerStart transceive exactly when the
SequencerConfig call returned 0, and it returns 0. -/
theorem playback_follows_failed_initialization (m : IscMsgs) (tr : Transport) (st : Dev)
    (siac_data : List Nat) (f : SiacFields) (k : Nat)
    (hf : extractSiacFields siac_data = .ok f) (hm : m.WF) (hwf : st.WF m) (hk : k < 4)
    (hprev : ∀ j, j < k → tr.rc (st.calls + j) = 0) (hfail : tr.rc (st.calls + k) ≠ 0) :
    ∃ st', spi_write_test_msg m tr st siac_data = .ok (0, st') ∧
      transceives st'.trace =
        transceives st.trace ++
          ((initFrames m).take (k + 1)).zip (List.replicate k 0 ++ [tr.rc (st.calls + k)]) ++
          (frame (sequencerConfigMsg (patchTemplates st.tpl f)).1
              (sequencerConfigMsg (patchTemplates st.tpl f)).2, tr.rc (st.calls + (k + 1))) ::
            (if tr.rc (st.calls + (k + 1)) = 0 then
              [(frame (st.aucIscSequencerStartReq.set 6 0) m.iIscSequencerStartReqLen,
                tr.rc (st.calls + (k + 1) + 1))]
            else []) := by
  obtain ⟨st', hrun, -, htr⟩ := spi_write_test_msg_spec tr hf hm hwf
  have hseq := abortingSeq_first_failure tr.rc (initFrames m) st.calls k
    (by simpa [initFrames] using hk) hprev hfail
  have hlen : (abortingSeq tr.rc st.calls (initFrames m)).length = k + 1 := by
    rw [hseq]
    simp [initFrames]
    omega
  refine ⟨st', hrun, ?_⟩
  rw [htr, hlen, hseq]
  by_cases h1 : tr.rc (st.calls + (k + 1)) = 0 <;>
    simp [playFrames, abortingSeq, h1]

/-- Witness for C11 (amended): the Test transfer, the second initialization step, is
rejected (`k = 1`) on the sample requests from the initial state; four transceives are
issued: Reset, Test, SequencerConfig, SequencerStart. -/
theorem playback_follows_failed_initialization_witness :
    (extractSiacFields [7, 1, 1, 15, 0, 0, 0] = .ok ⟨1, 1, 15⟩ ∧ sampleMsgs.WF ∧
      (Dev.init sampleStartReq).WF sampleMsgs ∧ 1 < 4 ∧
      (∀ j, j < 1 → rejectSecondTransport.rc ((Dev.init sampleStartReq).calls + j) = 0) ∧
      rejectSecondTransport.rc ((Dev.init sampleStartReq).calls + 1) ≠ 0) ∧
    ∃ st', spi_write_test_msg sampleMsgs rejectSecondTransport (Dev.init sampleStartReq)
        [7, 1, 1, 15, 0, 0, 0] = .ok (0, st') ∧
      transceives st'.trace =
        [(frame sampleMsgs.aucIscResetReq 6, 0), (frame sampleMsgs.aucIscTestReq 6, -5),
         (frame (patchTemplates Templates.init ⟨1, 1, 15⟩).iscSequencerConfigReq 50, 0),
         (frame (sampleStartReq.set 6 0) 8, 0)] := by
  have hprev : ∀ j, j < 1 →
      rejectSecondTransport.rc ((Dev.init sampleStartReq).calls + j) = 0 := by
    intro j hj
    have e : j = 0 := by omega
    subst e
    decide
  refine ⟨⟨by decide, by decide, by decide, by decide, hprev, by decide⟩, ?_⟩
  obtain ⟨st', hrun, htr⟩ :=
    playback_follows_failed_initialization sampleMsgs rejectSecondTransport
      (Dev.init sampleStartReq) [7, 1, 1, 15, 0, 0, 0] ⟨1, 1, 15⟩ 1 (by decide) (by decide)
      (by decide) (by decide) hprev (by decide)
  refine ⟨st', hrun, ?_⟩
  rw [htr]
  rfl

/-! ## C12: contents of the transmit buffer after loading -/

/-- C12: for every message `msgBuf`, every length `len` with `len ≤ 70` and
`len ≤ |msgBuf|`, and every prior content of the 70-byte transmit buffer,
`updateTxBuffer(msgBuf, len)` returns with `tx_buffer[i] == msgBuf[i]` for all `i < len`
and `tx_buffer[j] == 0` for all `len ≤ j < 70`: nothing of the prior content survives. -/
theorem updateTxBuffer_contents (tx_buffer msgBuf : List Nat) (len : Nat)
    (htx : tx_buffer.length = sizeofTxBuffer) (h1 : len ≤ sizeofTxBuffer)
    (h2 : len ≤ msgBuf.length) :
    ∃ tx', updateTxBuffer tx_buffer msgBuf len = .ok tx' ∧
      tx'.length = 70 ∧
      (∀ i, i < len → tx'[i]? = msgBuf[i]?) ∧
      (∀ j, len ≤ j → j < 70 → tx'[j]? = some 0) ∧
      (∀ other : List Nat, other.length = sizeofTxBuffer →
        updateTxBuffer other msgBuf len = .ok tx') := by
  refine ⟨frame msgBuf len, updateTxBuffer_eq htx h2 h1, frame_length h2 h1, ?_, ?_,
    fun other ho => updateTxBuffer_eq ho h2 h1⟩
  · intro i hi
    have hl : i < (msgBuf.take len).length := by
      rw [List.length_take]
      omega
    simp only [frame]
    rw [List.getElem?_append_left hl, List.getElem?_take, if_pos hi]
  · intro j hj hj70
    have hl : (msgBuf.take len).length ≤ j := by
      rw [List.length_take]
      omega
    have hlen : (msgBuf.take len).length = len := by
      rw [List.length_take]
      omega
    simp only [frame]
    rw [List.getElem?_append_right hl, List.getElem?_replicate, hlen, if_pos]
    simp only [sizeofTxBuffer]
    omega

/-- Witness for C12: a 3-byte request loaded with length 2 over a buffer full of 0x99. -/
theorem updateTxBuffer_contents_witness :
    ((List.replicate 70 0x99).length = sizeofTxBuffer ∧ 2 ≤ sizeofTxBuffer ∧
      2 ≤ [0x11, 0x22, 0x33].length) ∧
    ∃ tx', updateTxBuffer (List.replicate 70 0x99) [0x11, 0x22, 0x33] 2 = .ok tx' ∧
      tx'.length = 70 ∧ tx'[1]? = some 0x22 ∧ tx'[2]? = some 0 ∧ tx'[69]? = some 0 := by
  refine ⟨⟨by decide, by decide, by decide⟩, ?_⟩
  obtain ⟨tx', hrun, hlen, hcopy, hzero, -⟩ :=
    updateTxBuffer_contents (List.replicate 70 0x99) [0x11, 0x22, 0x33] 2
      (by decide) (by decide) (by decide)
  exact ⟨tx', hrun, hlen, hcopy 1 (by decide), hzero 2 (by decide) (by decide),
    hzero 69 (by decide) (by decide)⟩

/-! ## C13: structure of the templates is invariant -/

theorem createIscSequencerConfigReq_ok {t t' : Templates} {siac_data : List Nat}
    (h : createIscSequencerConfigReq t siac_data = .ok t') :
    ∃ f, extractSiacFields siac_data = .ok f ∧ t' = patchTemplates t f := by
  unfold createIscSequencerConfigReq at h
  cases hx : extractSiacFields siac_data with
  | error e => simp [hx, bind, Except.bind] at h
  | ok f =>
    refine ⟨f, rfl, ?_⟩
    simpa [hx, bind, Except.bind, pure, Except.pure] using h.symm

theorem Templates.inv_foldlM (inputs : List (List Nat)) :
    ∀ t0 t : Templates, t0.Inv →
      inputs.foldlM createIscSequencerConfigReq t0 = .ok t → t.Inv := by
  induction inputs with
  | nil =>
    intro t0 t h0 h
    have e : t0 = t := by simpa [pure, Except.pure] using h
    exact e ▸ h0
  | cons x xs ih =>
    intro t0 t h0 h
    rw [List.foldlM_cons] at h
    cases hx : createIscSequencerConfigReq t0 x with
    | error e => simp [hx, bind, Except.bind] at h
    | ok t1 =>
      obtain ⟨f, -, ht1⟩ := createIscSequencerConfigReq_ok hx
      rw [hx] at h
      exact ih t1 t (ht1 ▸ Templates.inv_patch h0 f) h

theorem patchTemplates_other_unchanged (t : Templates) (f : SiacFields) :
    (f.hours = 0 → (patchTemplates t f).iscSequencerConfigReq = t.iscSequencerConfigReq) ∧
    (f.hours ≠ 0 →
      (patchTemplates t f).iscSequencerConfigReqWithoutHours =
        t.iscSequencerConfigReqWithoutHours) := by
  unfold patchTemplates
  constructor <;> intro h <;> simp [h]

/-- C13: after every finite sequence of `createIscSequencerConfigReq` calls from the
initial arrays — given as the fields the calls extracted, or as the slices they were
called with — every byte of the WithHours template at an offset other than 24, 40, 48 and
every byte of the WithoutHours template at an offset other than 24, 40 still has its
initial value (and the arrays keep their sizes); a call with `hours == 0` leaves the
WithHours template entirely unchanged and a call with `hours != 0` leaves the WithoutHours
template entirely unchanged. -/
theorem template_structure_invariant :
    (∀ (history : List SiacFields) (i : Nat), i ≠ 24 → i ≠ 40 → i ≠ 48 →
      (history.foldl patchTemplates Templates.init).iscSequencerConfigReq[i]? =
        SIVoice.iscSequencerConfigReq[i]?) ∧
    (∀ (history : List SiacFields) (i : Nat), i ≠ 24 → i ≠ 40 →
      (history.foldl patchTemplates Templates.init).iscSequencerConfigReqWithoutHours[i]? =
        SIVoice.iscSequencerConfigReqWithoutHours[i]?) ∧
    (∀ history : List SiacFields,
      (history.foldl patchTemplates Templates.init).iscSequencerConfigReq.length = 50 ∧
      (history.foldl patchTemplates Templates.init).iscSequencerConfigReqWithoutHours.length =
        42) ∧
    (∀ (inputs : List (List Nat)) (t : Templates),
      inputs.foldlM createIscSequencerConfigReq Templates.init = .ok t →
      (∀ i, i ≠ 24 → i ≠ 40 → i ≠ 48 →
        t.iscSequencerConfigReq[i]? = SIVoice.iscSequencerConfigReq[i]?) ∧
      (∀ i, i ≠ 24 → i ≠ 40 →
        t.iscSequencerConfigReqWithoutHours[i]? =
          SIVoice.iscSequencerConfigReqWithoutHours[i]?)) ∧
    (∀ (t : Templates) (f : SiacFields), f.hours = 0 →
      (patchTemplates t f).iscSequencerConfigReq = t.iscSequencerConfigReq) ∧
    (∀ (t : Templates) (f : SiacFields), f.hours ≠ 0 →
      (patchTemplates t f).iscSequencerConfigReqWithoutHours =
        t.iscSequencerConfigReqWithoutHours) ∧
    (∀ (t t' : Templates) (siac_data : List Nat),
      createIscSequencerConfigReq t siac_data = .ok t' →
      (t'.msgHasHours = false → t'.iscSequencerConfigReq = t.iscSequencerConfigReq) ∧
      (t'.msgHasHours = true →
        t'.iscSequencerConfigReqWithoutHours = t.iscSequencerConfigReqWithoutHours)) := by
  refine ⟨fun history i => (Templates.inv_foldl history _ Templates.inv_init).2.2.1 i,
    fun history i => (Templates.inv_foldl history _ Templates.inv_init).2.2.2 i,
    fun history => ⟨(Templates.inv_foldl history _ Templates.inv_init).1,
      (Templates.inv_foldl history _ Templates.inv_init).2.1⟩,
    fun inputs t h => ⟨(Templates.inv_foldlM inputs _ t Templates.inv_init h).2.2.1,
      (Templates.inv_foldlM inputs _ t Templates.inv_init h).2.2.2⟩,
    fun t f => (patchTemplates_other_unchanged t f).1,
    fun t f => (patchTemplates_other_unchanged t f).2,
    fun t t' siac_data h => ?_⟩
  obtain ⟨f, -, rfl⟩ := createIscSequencerConfigReq_ok h
  rw [patchTemplates_msgHasHours]
  constructor
  · intro hh
    exact (patchTemplates_other_unchanged t f).1 (by simpa using hh)
  · intro hh
    exact (patchTemplates_other_unchanged t f).2 (by simpa using hh)

/-! ## C14: each wait belongs to its own transaction -/

/-- C14 at a failing run: the initialization sequence on a transport that accepts every
transfer and completes transfer `k` with result `100 + k`, from the initial state.  The
completion flag is cleared once, before the Reset transfer, and never again; the waits of
Test, Version and AudioConfig therefore exit at their first check on the flag left by
Reset (each reports Reset's result 100), the transmit buffer is reloaded while the
previous transfer is still outstanding, and on return transfers 1, 2, 3 have never been
awaited.  The playback sequence that follows clears the flag nowhere. -/
theorem signal_not_cleared_between_transactions :
    (S1V3G340_Initialize_Audio_Config sampleMsgs taggedTransport
        (Dev.init sampleStartReq)).map
        (fun p => (p.1, p.2.trace, p.2.outstanding)) =
      .ok (0,
        [.load sampleMsgs.aucIscResetReq 6,
         .sigReset,
         .transceive (frame sampleMsgs.aucIscResetReq 6) 0,
         .waitExit 100,
         .load sampleMsgs.aucIscTestReq 6,
         .transceive (frame sampleMsgs.aucIscTestReq 6) 0,
         .waitExit 100,
         .load sampleMsgs.aucIscVersionReq 6,
         .transceive (frame sampleMsgs.aucIscVersionReq 6) 0,
         .waitExit 100,
         .load sampleMsgs.aucIscAudioConfigReq 8,
         .transceive (frame sampleMsgs.aucIscAudioConfigReq 8) 0,
         .waitExit 100],
        [1, 2, 3]) ∧
    (S1V3G340_Initialize_Audio_Config sampleMsgs taggedTransport
        (Dev.init sampleStartReq)).map
        (fun p => (clearedBetweenWaits false p.2.trace, resetCount p.2.trace)) =
      .ok (false, 1) ∧
    (spi_write_test_msg sampleMsgs taggedTransport (Dev.init sampleStartReq)
        [7, 1, 1, 15, 0, 0, 0]).map
        (fun p => (clearedBetweenWaits false p.2.trace, resetCount p.2.trace,
          (transceives p.2.trace).length, waitResults p.2.trace, p.2.outstanding)) =
      .ok (false, 1, 6, [100, 100, 100, 100, 100, 100], [1, 2, 3, 4, 5]) := by
  refine ⟨?_, ?_, ?_⟩ <;> rfl

/-! ## C15: what the extractor computes -/

theorem strlenFrom_first_zero :
    ∀ (l : List Nat) (n k : Nat), l[n]? = some 0 → (∀ j, j < n → l[j]? ≠ some 0) →
      strlenFrom l k = .ok (k + n) := by
  intro l
  induction l with
  | nil => intro n k h; simp at h
  | cons b rest ih =>
    intro n k hn hfirst
    cases n with
    | zero =>
      have hb : b = 0 := by simpa using hn
      simp [strlenFrom, hb]
    | succ n =>
      have hb : b ≠ 0 := by
        have := hfirst 0 (by omega)
        simpa using this
      have hrest := ih n (k + 1) (by simpa using hn)
        (fun j hj => by
          have := hfirst (j + 1) (by omega)
          simpa using this)
      simp only [strlenFrom, hb, if_false, hrest]
      congr 1
      omega

theorem scanLoop_range_no_marker (s : List Nat) :
    ∀ (k i : Nat) (f : SiacFields), i + k ≤ s.length →
      (∀ j, i ≤ j → j < i + k → s[j]? ≠ some 7) → scanLoop s k i f = .ok f := by
  intro k
  induction k with
  | zero => intro i f _ _; rfl
  | succ k ih =>
    intro i f h hno
    have hi : i < s.length := by omega
    have hne : s[i] ≠ 7 := by
      have := hno i (Nat.le_refl i) (by omega)
      rw [List.getElem?_eq_getElem hi] at this
      simpa using this
    simp only [scanLoop, readByte_of_lt hi, bind, Except.bind, hne, if_false]
    exact ih (i + 1) f (by omega) (fun j h1 h2 => hno j (by omega) (by omega))

theorem scanLoop_last_marker (s : List Nat) (p : Nat) (hp : s[p]? = some 7)
    (hp3 : p + 3 < s.length) :
    ∀ (k i : Nat) (f : SiacFields), i ≤ p → p < i + k → i + k ≤ s.length →
      (∀ j, p < j → j < i + k → s[j]? ≠ some 7) →
      scanLoop s k i f =
        .ok ⟨s.getD (p + 1) 0 % 256, s.getD (p + 2) 0 % 256, s.getD (p + 3) 0 % 256⟩ := by
  intro k
  induction k with
  | zero => intro i f h1 h2; omega
  | succ k ih =>
    intro i f hip hpk hlen hno
    have hi : i < s.length := by omega
    have hpl : p < s.length := by omega
    have hsp : s[p] = 7 := by
      rw [List.getElem?_eq_getElem hpl] at hp
      simpa using hp
    by_cases hm : s[i] = 7
    · have h1 : i + 1 < s.length := by omega
      have h2 : i + 2 < s.length := by omega
      have h3 : i + 3 < s.length := by omega
      simp only [scanLoop, readByte_of_lt hi, readByte_of_lt h1, readByte_of_lt h2,
        readByte_of_lt h3, bind, Except.bind, hm, if_true]
      by_cases heq : i = p
      · subst heq
        rw [scanLoop_range_no_marker s k (i + 1) _ (by omega)
          (fun j h1 h2 => hno j (by omega) (by omega))]
        simp [List.getD_eq_getElem?_getD, List.getElem?_eq_getElem, h1, h2, h3]
      · exact ih (i + 1) _ (by omega) (by omega) (by omega)
          (fun j h1 h2 => hno j h1 (by omega))
    · have hne : i ≠ p := fun e => hm (by subst e; exact hsp)
      simp only [scanLoop, readByte_of_lt hi, bind, Except.bind, hm, if_false]
      exact ih (i + 1) f (by omega) (by omega) (by omega)
        (fun j h1 h2 => hno j h1 (by omega))

/-- C15: for every 7-byte slice `s` whose first zero byte is at index `n`: if `i < n` is
the largest index below `n` with `s[i] == 7` and `i + 3 ≤ 6`, the extractor yields
`(s[i+1], s[i+2], s[i+3])` and `createIscSequencerConfigReq` patches with these fields
(the last marker wins; bytes at or after the first zero are never examined as markers);
if no index below `n` holds 7, the fields are (0, 0, 0) and the WithoutHours template is
patched with control code 0x8D and minutes code 0x17. -/
theorem extractor_characterisation (s : List Nat) (n : Nat) (hlen : s.length = 7)
    (hbytes : ∀ b ∈ s, b < 256) (hn : s[n]? = some 0)
    (hfirst : ∀ j, j < n → s[j]? ≠ some 0) :
    (∀ i, i < n → s[i]? = some 7 → (∀ j, i < j → j < n → s[j]? ≠ some 7) → i + 3 ≤ 6 →
      ∃ c h mi, s[i + 1]? = some c ∧ s[i + 2]? = some h ∧ s[i + 3]? = some mi ∧
        extractSiacFields s = .ok ⟨c, h, mi⟩ ∧
        ∀ t, createIscSequencerConfigReq t s = .ok (patchTemplates t ⟨c, h, mi⟩)) ∧
    ((∀ i, i < n → s[i]? ≠ some 7) →
      extractSiacFields s = .ok ⟨0, 0, 0⟩ ∧
      ∀ t : Templates,
        t.iscSequencerConfigReqWithoutHours.length = sizeofIscSequencerConfigReqWithoutHours →
        ∃ t', createIscSequencerConfigReq t s = .ok t' ∧ t'.msgHasHours = false ∧
          t'.iscSequencerConfigReqWithoutHours[24]? = some 0x8D ∧
          t'.iscSequencerConfigReqWithoutHours[40]? = some 0x17) := by
  have hstr : strlen s = .ok n := by
    have := strlenFrom_first_zero s n 0 hn hfirst
    simpa [strlen] using this
  have hnl : n < s.length := by
    by_contra hc
    rw [List.getElem?_eq_none (Nat.le_of_not_lt hc)] at hn
    simp at hn
  constructor
  · intro i hi hmark hlast hi3
    have h1 : i + 1 < s.length := by omega
    have h2 : i + 2 < s.length := by omega
    have h3 : i + 3 < s.length := by omega
    have hscan := scanLoop_last_marker s i hmark h3 n 0 ⟨0, 0, 0⟩ (Nat.zero_le i)
      (by omega) (by omega) (fun j a b => hlast j a (by omega))
    have b1 : s[i + 1] < 256 := hbytes _ (List.getElem_mem h1)
    have b2 : s[i + 2] < 256 := hbytes _ (List.getElem_mem h2)
    have b3 : s[i + 3] < 256 := hbytes _ (List.getElem_mem h3)
    have hext : extractSiacFields s = .ok ⟨s[i + 1], s[i + 2], s[i + 3]⟩ := by
      simp only [extractSiacFields, hstr, bind, Except.bind, hscan]
      simp [List.getD_eq_getElem?_getD, List.getElem?_eq_getElem, h1, h2, h3,
        Nat.mod_eq_of_lt b1, Nat.mod_eq_of_lt b2, Nat.mod_eq_of_lt b3]
    exact ⟨s[i + 1], s[i + 2], s[i + 3], List.getElem?_eq_getElem h1,
      List.getElem?_eq_getElem h2, List.getElem?_eq_getElem h3, hext,
      fun t => createIscSequencerConfigReq_eq hext⟩
  · intro hno
    have hext : extractSiacFields s = .ok ⟨0, 0, 0⟩ := by
      simp only [extractSiacFields, hstr, bind, Except.bind]
      exact scanLoop_range_no_marker s n 0 _ (by omega) (fun j _ h2 => hno j (by omega))
    refine ⟨hext, fun t ht => ?_⟩
    have hb := patch_withoutHours_bytes (t := t) (f := ⟨0, 0, 0⟩) ht rfl
    exact ⟨_, createIscSequencerConfigReq_eq hext, by simp [patchTemplates_msgHasHours],
      hb.1, hb.2.1⟩

/-- Witness for C15: the slice `07 01 00 1E 00 00 00` (first zero at index 2, marker at
index 0) yields control 1, hours 0, minutes 30. -/
theorem extractor_characterisation_witness :
    ([7, 1, 0, 30, 0, 0, 0].length = 7 ∧ (∀ b ∈ [7, 1, 0, 30, 0, 0, 0], b < 256) ∧
      [7, 1, 0, 30, 0, 0, 0][2]? = some 0 ∧
      (∀ j, j < 2 → [7, 1, 0, 30, 0, 0, 0][j]? ≠ some 0)) ∧
    extractSiacFields [7, 1, 0, 30, 0, 0, 0] = .ok ⟨1, 0, 30⟩ := by
  have hb : ∀ b ∈ [7, 1, 0, 30, 0, 0, 0], b < 256 := by decide
  have hfirst : ∀ j, j < 2 → [7, 1, 0, 30, 0, 0, 0][j]? ≠ some 0 := by decide
  refine ⟨⟨rfl, hb, rfl, hfirst⟩, ?_⟩
  obtain ⟨c, h, mi, h1, h2, h3, hext, -⟩ :=
    (extractor_characterisation [7, 1, 0, 30, 0, 0, 0] 2 rfl hb rfl hfirst).1 0
      (by decide) rfl
      (fun j a b => by
        have e : j = 1 := by omega
        subst e
        decide)
      (by decide)
  have e1 : c = 1 := by simpa using h1.symm
  have e2 : h = 0 := by simpa using h2.symm
  have e3 : mi = 30 := by simpa using h3.symm
  rw [hext, e1, e2, e3]

/-! ## C16: header and file-event layout -/

theorem wireFormat_of_inv {t : Templates} (h : t.Inv) :
    (WireFormat t.iscSequencerConfigReq ∧ t.iscSequencerConfigReq.length = 50 ∧
      t.iscSequencerConfigReq[8]? = some 5) ∧
    (WireFormat t.iscSequencerConfigReqWithoutHours ∧
      t.iscSequencerConfigReqWithoutHours.length = 42 ∧
      t.iscSequencerConfigReqWithoutHours[8]? = some 4) := by
  obtain ⟨h1, h2, h3, h4⟩ := h
  rw [sizeofIscSequencerConfigReq_eq] at h1
  rw [sizeofIscSequencerConfigReqWithoutHours_eq] at h2
  have fixW : ∀ i v, i ≠ 24 → i ≠ 40 → i ≠ 48 → SIVoice.iscSequencerConfigReq[i]? = some v →
      t.iscSequencerConfigReq[i]? = some v := fun i v a b c e => (h3 i a b c).trans e
  have fixO : ∀ i v, i ≠ 24 → i ≠ 40 → SIVoice.iscSequencerConfigReqWithoutHours[i]? = some v →
      t.iscSequencerConfigReqWithoutHours[i]? = some v := fun i v a b e => (h4 i a b).trans e
  refine ⟨⟨?_, h1, fixW 8 5 (by decide) (by decide) (by decide) rfl⟩,
    ⟨?_, h2, fixO 8 4 (by decide) (by decide) rfl⟩⟩
  · unfold WireFormat
    rw [h1]
    refine ⟨fixW _ _ (by decide) (by decide) (by decide) rfl,
      fixW _ _ (by decide) (by decide) (by decide) rfl,
      fixW _ _ (by decide) (by decide) (by decide) rfl,
      fixW _ _ (by decide) (by decide) (by decide) rfl, fun g hg => ?_,
      fixW _ _ (by decide) (by decide) (by decide) rfl,
      fixW _ _ (by decide) (by decide) (by decide) rfl⟩
    have hg5 : g < 5 := hg
    interval_cases g <;>
      exact ⟨fixW _ _ (by decide) (by decide) (by decide) rfl,
        fixW _ _ (by decide) (by decide) (by decide) rfl,
        fixW _ _ (by decide) (by decide) (by decide) rfl,
        fixW _ _ (by decide) (by decide) (by decide) rfl,
        fixW _ _ (by decide) (by decide) (by decide) rfl,
        fixW _ _ (by decide) (by decide) (by decide) rfl,
        ⟨_, List.getElem?_eq_getElem (by omega)⟩,
        fixW _ _ (by decide) (by decide) (by decide) rfl⟩
  · unfold WireFormat
    rw [h2]
    refine ⟨fixO _ _ (by decide) (by decide) rfl, fixO _ _ (by decide) (by decide) rfl,
      fixO _ _ (by decide) (by decide) rfl, fixO _ _ (by decide) (by decide) rfl,
      fun g hg => ?_, fixO _ _ (by decide) (by decide) rfl,
      fixO _ _ (by decide) (by decide) rfl⟩
    have hg4 : g < 4 := hg
    interval_cases g <;>
      exact ⟨fixO _ _ (by decide) (by decide) rfl, fixO _ _ (by decide) (by decide) rfl,
        fixO _ _ (by decide) (by decide) rfl, fixO _ _ (by decide) (by decide) rfl,
        fixO _ _ (by decide) (by decide) rfl, fixO _ _ (by decide) (by decide) rfl,
        ⟨_, List.getElem?_eq_getElem (by omega)⟩,
        fixO _ _ (by decide) (by decide) rfl⟩

/-- C16: in the initial state and after every sequence of `createIscSequencerConfigReq`
calls (given as extracted fields or as the slices passed in), each of the two templates
has bytes 0..1 = `00 AA`, byte 2 = total length − 2, byte 8 = (total length − 10) / 8 —
5 for WithHours (50 bytes), 4 for WithoutHours (42 bytes) — and every 8-byte group from
offset 10 on has the form `00 00 01 00 03 00 <code> 00`, with the fixed phrase codes 0xCA
at offset 16 and 0xCB at offset 32. -/
theorem wire_format_header_consistency :
    ((WireFormat Templates.init.iscSequencerConfigReq ∧
        Templates.init.iscSequencerConfigReq.length = 50 ∧
        Templates.init.iscSequencerConfigReq[8]? = some 5) ∧
      (WireFormat Templates.init.iscSequencerConfigReqWithoutHours ∧
        Templates.init.iscSequencerConfigReqWithoutHours.length = 42 ∧
        Templates.init.iscSequencerConfigReqWithoutHours[8]? = some 4)) ∧
    (∀ history : List SiacFields,
      (WireFormat (history.foldl patchTemplates Templates.init).iscSequencerConfigReq ∧
        (history.foldl patchTemplates Templates.init).iscSequencerConfigReq.length = 50 ∧
        (history.foldl patchTemplates Templates.init).iscSequencerConfigReq[8]? = some 5) ∧
      (WireFormat
          (history.foldl patchTemplates Templates.init).iscSequencerConfigReqWithoutHours ∧
        (history.foldl patchTemplates Templates.init).iscSequencerConfigReqWithoutHours.length =
          42 ∧
        (history.foldl patchTemplates Templates.init).iscSequencerConfigReqWithoutHours[8]? =
          some 4)) ∧
    (∀ (inputs : List (List Nat)) (t : Templates),
      inputs.foldlM createIscSequencerConfigReq Templates.init = .ok t →
      (WireFormat t.iscSequencerConfigReq ∧ t.iscSequencerConfigReq.length = 50 ∧
        t.iscSequencerConfigReq[8]? = some 5) ∧
      (WireFormat t.iscSequencerConfigReqWithoutHours ∧
        t.iscSequencerConfigReqWithoutHours.length = 42 ∧
        t.iscSequencerConfigReqWithoutHours[8]? = some 4)) :=
  ⟨wireFormat_of_inv Templates.inv_init,
    fun history => wireFormat_of_inv (Templates.inv_foldl history _ Templates.inv_init),
    fun inputs t h => wireFormat_of_inv (Templates.inv_foldlM inputs _ t Templates.inv_init h)⟩

end SIVoice
